import Mathlib

/-!
Verification of the `mas` Mac App Store package reconciler
(roles/mac/mas/library/mas.py) against its natural-language specification.

The module drives an external `mas` binary through three subcommands
(`list`, `outdated`, `install <id>`), validates inputs with
whitelisted-character rules, and accumulates a `(failed, changed, message)`
status over a batch of package identifiers.

Embedding conventions:
* The external binary is a black box.  A `World` carries a script of
  command results (consumed in order by `run_command`) together with the
  trace of commands issued so far, so that theorems can speak both about
  the values the code reads and about which subprocesses it launched.
* Python exceptions become `Except PyExc`:  `PyExc.mas m` models
  `MasException(m)` (caught by `Mas.run`), `PyExc.type` models the
  `TypeError` that `str.find(None)` would raise (not caught anywhere).
* The mutable `Mas` instance splits into an immutable `MasConfig`
  (resolved `mas` path, Ansible check mode) and a mutable `MasState`
  threaded through every method (the status accumulator plus the
  `current_package` property).
-/

/-- Decimal digit, the `\d` class of the Python 2 `re` module on `str`
(`VALID_PACKAGE_CHARS`). -/
def isPyDigit (c : Char) : Bool := '0' ≤ c && c ≤ '9'

/-- Word character, the `\w` class of the Python 2 `re` module on `str`:
`[a-zA-Z0-9_]`. -/
def isPyWordChar (c : Char) : Bool :=
  ('a' ≤ c && c ≤ 'z') || ('A' ≤ c && c ≤ 'Z') || ('0' ≤ c && c ≤ '9') || c = '_'

/-- Whitespace, the `\s` class of the Python 2 `re` module on `str`:
space, tab, newline, vertical tab, form feed, carriage return. -/
def isPySpaceChar (c : Char) : Bool :=
  c = ' ' || c = '\t' || c = '\n' || c = '\x0b' || c = '\x0c' || c = '\r'

/-- The platform path separator `os.path.sep`, `/` on the macOS hosts this
module targets (interpolated into `VALID_MAS_PATH_CHARS`). -/
def os_path_sep : Char := '/'

/-- Membership in the whitelist built by
`_create_regex_group(VALID_MAS_PATH_CHARS)`: the compiled regex is
`[^\w\s/.-]` and `valid_mas_path` demands that `search` finds no match,
i.e. that every character is in the class `\w`, `\s`, `/`, `.`, `-`. -/
def isValidMasPathChar (c : Char) : Bool :=
  isPyWordChar c || isPySpaceChar c || c = os_path_sep || c = '.' || c = '-'

/-- Python `line.find(pat) != -1` on character lists: `pat` occurs as a
contiguous substring. -/
def strFind : List Char → List Char → Bool
  | pat, [] => pat.isEmpty
  | pat, c :: rest => pat.isPrefixOf (c :: rest) || strFind pat rest

/-- Python `out.split('\n')`: split at every newline, keeping empty pieces;
the empty string yields one empty line. -/
def splitOnNewline : List Char → List (List Char)
  | [] => [[]]
  | c :: rest =>
    let r := splitOnNewline rest
    if c = '\n' then [] :: r
    else
      match r with
      | [] => [[c]]
      | l :: ls => (c :: l) :: ls

/-- The scanning loop shared by `_current_package_is_installed` and
`_current_package_is_outdated`:
`for line in out.split('\n'): if line.find(pkg) != -1: return True`. -/
def findsPackage (pkg : String) (out : String) : Bool :=
  (splitOnNewline out.toList).any (fun line => strFind pkg.toList line)

/-- Python `str.strip()`: drop leading and trailing whitespace. -/
def pyStrip (s : String) : String :=
  String.mk (((s.toList.dropWhile isPySpaceChar).reverse.dropWhile isPySpaceChar).reverse)

/-- Python `'...{0}...'.format(x)` when `x` is the `current_package`
property: a string formats as itself, `None` formats as "None". -/
def pyFormatOpt : Option String → String
  | none => "None"
  | some s => s

/-- The message `'Invalid package: {0}.'.format(package)` used by the
`current_package` setter, `_current_package_is_installed`,
`_install_current_package` and `_upgrade_current_package`. -/
def invalidPackageMsg (p : Option String) : String :=
  "Invalid package: " ++ pyFormatOpt p ++ "."

/-- The aggregate summary `"Changed: %d, Unchanged: %d"` composed at the
end of `Mas.run`. -/
def aggregate_message (c u : Nat) : String :=
  "Changed: " ++ Nat.repr c ++ ", Unchanged: " ++ Nat.repr u

/-- Result triple `(rc, out, err)` of `module.run_command`. -/
abbrev CommandResult := Int × String × String

/-- The observable subprocess world: the script of results the external
`mas` binary will return to successive `run_command` calls, and the trace
of command argument vectors issued so far. -/
structure World where
  responses : List CommandResult
  trace : List (List String)
deriving Repr, DecidableEq

/-- One `module.run_command(cmd)` call: consume the next scripted result
(defaulting to `(0, "", "")` when the script is exhausted) and record the
issued command. -/
def World.run_command (w : World) (cmd : List String) : CommandResult × World :=
  (w.responses.headD (0, "", ""),
   { responses := w.responses.tail, trace := w.trace ++ [cmd] })

/-- Python exceptions escaping a `Mas` method: `MasException` with its
message, or the `TypeError` that `str.find(None)` raises. -/
inductive PyExc where
  | mas : String → PyExc
  | type : PyExc
deriving Repr, DecidableEq

/-- Immutable per-instance data of a constructed `Mas` object: the
resolved `mas_path` and the Ansible `check_mode` (dry-run) flag. -/
structure MasConfig where
  mas_path : String
  check_mode : Bool
deriving Repr, DecidableEq

/-- Mutable attributes of a `Mas` instance: the status accumulator set up
by `_setup_status_vars` plus the `current_package` property (which Python
leaves unset until the first assignment; modelled as `none`). -/
structure MasState where
  failed : Bool
  changed : Bool
  changed_count : Nat
  unchanged_count : Nat
  message : String
  current_package : Option String
deriving Repr, DecidableEq

/-- The state produced by `_setup_status_vars` at construction. -/
def Mas.setup_status_vars : MasState :=
  { failed := false, changed := false, changed_count := 0, unchanged_count := 0,
    message := "", current_package := none }

/-- Classmethod `Mas.valid_mas_path`: `None` is valid, and a string is
valid iff `INVALID_MAS_PATH_REGEX.search` (regex `[^\w\s/.-]`) finds no
match, i.e. iff all characters belong to the whitelist.  The
`isinstance(mas_path, string_types)` test always holds here because the
embedding types the non-absent input as a string. -/
def Mas.valid_mas_path : Option String → Bool
  | none => true
  | some s => s.toList.all isValidMasPathChar

/-- Classmethod `Mas.valid_package`: `None` is valid, and a string is
valid iff `INVALID_PACKAGE_REGEX.search` (regex `[^\d]`) finds no match,
i.e. iff all characters are decimal digits (the empty string vacuously
passes). -/
def Mas.valid_package : Option String → Bool
  | none => true
  | some s => s.toList.all isPyDigit

/-- The mutating command construction in `_install_current_package` and
`_upgrade_current_package`:
`opts = [mas_path, 'install'] + [current_package]` followed by
`cmd = [opt for opt in opts if opt]`.  Whenever this point is reached the
current package is a string (a `None` would already have raised a
`TypeError` inside the installed-check), so the comprehension's filtering
of falsy elements reduces to dropping empty strings. -/
def installCmd (cfg : MasConfig) (p : String) : List String :=
  List.filter (fun s => !(s == "")) [cfg.mas_path, "install", p]

/-- Method `_current_package_is_installed`: raise `MasException` on an
invalid current package (setting `failed` and `message`), otherwise run
`mas list` and scan its stdout for the package as a substring of any
line.  With a `None` current package (which is valid) Python would raise
`TypeError` from `line.find(None)` after issuing the command. -/
def Mas.current_package_is_installed (cfg : MasConfig) (st : MasState) (w : World) :
    Except PyExc Bool × MasState × World :=
  if !(Mas.valid_package st.current_package) then
    let msg := invalidPackageMsg st.current_package
    (Except.error (PyExc.mas msg), { st with failed := true, message := msg }, w)
  else
    let (r, w1) := w.run_command [cfg.mas_path, "list"]
    match st.current_package with
    | some p => (Except.ok (findsPackage p r.2.1), st, w1)
    | none => (Except.error PyExc.type, st, w1)

/-- Method `_current_package_is_outdated`: return `false` on an invalid
current package without running anything, otherwise run `mas outdated`
and scan its stdout.  The state is never mutated.  As above, a `None`
current package would raise `TypeError` after the command. -/
def Mas.current_package_is_outdated (cfg : MasConfig) (st : MasState) (w : World) :
    Except PyExc Bool × World :=
  if !(Mas.valid_package st.current_package) then
    (Except.ok false, w)
  else
    let (r, w1) := w.run_command [cfg.mas_path, "outdated"]
    match st.current_package with
    | some p => (Except.ok (findsPackage p r.2.1), w1)
    | none => (Except.error PyExc.type, w1)

/-- The `current_package` property setter: validate on assignment,
raising `MasException` (and recording `failed` and the message, with
`_current_package` reset to `None`) on an invalid value. -/
def Mas.set_current_package (st : MasState) (package : Option String) :
    Except PyExc Unit × MasState :=
  if !(Mas.valid_package package) then
    let msg := invalidPackageMsg package
    (Except.error (PyExc.mas msg),
     { st with current_package := none, failed := true, message := msg })
  else
    (Except.ok (), { st with current_package := package })

/-- Method `_install_current_package`: validate, test installedness
(unchanged terminal state when already installed), short-circuit in check
mode with a would-be message, otherwise run `mas install <id>` and
re-verify, classifying the outcome as changed success or as a fatal
failure carrying the stripped stderr of the mutating call. -/
def Mas.install_current_package (cfg : MasConfig) (st : MasState) (w : World) :
    Except PyExc Bool × MasState × World :=
  if !(Mas.valid_package st.current_package) then
    let msg := invalidPackageMsg st.current_package
    (Except.error (PyExc.mas msg), { st with failed := true, message := msg }, w)
  else
    match Mas.current_package_is_installed cfg st w with
    | (Except.error e, st1, w1) => (Except.error e, st1, w1)
    | (Except.ok installed, st1, w1) =>
      if installed then
        (Except.ok true,
         { st1 with unchanged_count := st1.unchanged_count + 1,
                    message := "Package already installed: " ++ pyFormatOpt st1.current_package },
         w1)
      else if cfg.check_mode then
        let msg := "Package would be installed: " ++ pyFormatOpt st1.current_package
        (Except.error (PyExc.mas msg), { st1 with changed := true, message := msg }, w1)
      else
        let (r, w2) := w1.run_command (installCmd cfg (pyFormatOpt st1.current_package))
        match Mas.current_package_is_installed cfg st1 w2 with
        | (Except.error e, st2, w3) => (Except.error e, st2, w3)
        | (Except.ok installed2, st2, w3) =>
          if installed2 then
            (Except.ok true,
             { st2 with changed_count := st2.changed_count + 1, changed := true,
                        message := "Package installed: " ++ pyFormatOpt st2.current_package },
             w3)
          else
            let msg := pyStrip r.2.2
            (Except.error (PyExc.mas msg), { st2 with failed := true, message := msg }, w3)

/-- One iteration of the `_install_packages` loop body:
`self.current_package = package; self._install_current_package()`. -/
def install_step (cfg : MasConfig) (package : String) (st : MasState) (w : World) :
    Except PyExc Bool × MasState × World :=
  match Mas.set_current_package st (some package) with
  | (Except.error e, st1) => (Except.error e, st1, w)
  | (Except.ok _, st1) => Mas.install_current_package cfg st1 w

/-- Method `_install_packages`: iterate the per-package step over the
batch; any exception propagates immediately, ending the loop. -/
def Mas.install_packages (cfg : MasConfig) :
    List String → MasState → World → Except PyExc Bool × MasState × World
  | [], st, w => (Except.ok true, st, w)
  | package :: rest, st, w =>
    match install_step cfg package st w with
    | (Except.error e, st1, w1) => (Except.error e, st1, w1)
    | (Except.ok _, st1, w1) => Mas.install_packages cfg rest st1 w1

/-- The gate expression of `_upgrade_current_package`:
`self._current_package_is_installed() and not self._current_package_is_outdated()`
with Python's short-circuit evaluation (the outdated query is only issued
when the installed query returned true). -/
def upgrade_gate (cfg : MasConfig) (st : MasState) (w : World) :
    Except PyExc Bool × MasState × World :=
  match Mas.current_package_is_installed cfg st w with
  | (Except.error e, st1, w1) => (Except.error e, st1, w1)
  | (Except.ok installed, st1, w1) =>
    if installed then
      match Mas.current_package_is_outdated cfg st1 w1 with
      | (Except.error e, w2) => (Except.error e, st1, w2)
      | (Except.ok outdated, w2) => (Except.ok (!outdated), st1, w2)
    else
      (Except.ok false, st1, w1)

/-- Method `_upgrade_current_package`: like the install variant but with
the conjunctive installed-and-not-outdated gate before and after the
mutating call, and with the upgrade message texts. -/
def Mas.upgrade_current_package (cfg : MasConfig) (st : MasState) (w : World) :
    Except PyExc Bool × MasState × World :=
  if !(Mas.valid_package st.current_package) then
    let msg := invalidPackageMsg st.current_package
    (Except.error (PyExc.mas msg), { st with failed := true, message := msg }, w)
  else
    match upgrade_gate cfg st w with
    | (Except.error e, st1, w1) => (Except.error e, st1, w1)
    | (Except.ok upToDate, st1, w1) =>
      if upToDate then
        (Except.ok true,
         { st1 with message := "Package is already upgraded: " ++ pyFormatOpt st1.current_package,
                    unchanged_count := st1.unchanged_count + 1 },
         w1)
      else if cfg.check_mode then
        let msg := "Package would be upgraded: " ++ pyFormatOpt st1.current_package
        (Except.error (PyExc.mas msg), { st1 with changed := true, message := msg }, w1)
      else
        let (r, w2) := w1.run_command (installCmd cfg (pyFormatOpt st1.current_package))
        match upgrade_gate cfg st1 w2 with
        | (Except.error e, st2, w3) => (Except.error e, st2, w3)
        | (Except.ok ok2, st2, w3) =>
          if ok2 then
            (Except.ok true,
             { st2 with changed_count := st2.changed_count + 1, changed := true,
                        message := "Package upgraded: " ++ pyFormatOpt st2.current_package },
             w3)
          else
            let msg := pyStrip r.2.2
            (Except.error (PyExc.mas msg), { st2 with failed := true, message := msg }, w3)

/-- One iteration of the `_upgrade_packages` loop body. -/
def upgrade_step (cfg : MasConfig) (package : String) (st : MasState) (w : World) :
    Except PyExc Bool × MasState × World :=
  match Mas.set_current_package st (some package) with
  | (Except.error e, st1) => (Except.error e, st1, w)
  | (Except.ok _, st1) => Mas.upgrade_current_package cfg st1 w

/-- Method `_upgrade_packages`. -/
def Mas.upgrade_packages (cfg : MasConfig) :
    List String → MasState → World → Except PyExc Bool × MasState × World
  | [], st, w => (Except.ok true, st, w)
  | package :: rest, st, w =>
    match upgrade_step cfg package st w with
    | (Except.error e, st1, w1) => (Except.error e, st1, w1)
    | (Except.ok _, st1, w1) => Mas.upgrade_packages cfg rest st1 w1

/-- Method `_run`: dispatch on a non-empty package list and the desired
state (the loops return `True`; the fall-through paths return `None`,
modelled as `false`, a value `run` discards). -/
def Mas.run_aux (cfg : MasConfig) (pkgs : List String) (state : String)
    (st : MasState) (w : World) : Except PyExc Bool × MasState × World :=
  if pkgs.isEmpty then (Except.ok false, st, w)
  else if state = "present" then Mas.install_packages cfg pkgs st w
  else if state = "latest" then Mas.upgrade_packages cfg pkgs st w
  else (Except.ok false, st, w)

/-- The tail of `Mas.run` after the `try/except MasException`: overwrite
the message with the aggregate summary when no failure occurred and more
than one package was counted, then return `self._status()`. -/
def Mas.run_finish (st : MasState) (w : World) :
    (Bool × Bool × String) × MasState × World :=
  let st' :=
    if st.failed = false ∧ 1 < st.changed_count + st.unchanged_count then
      { st with message := aggregate_message st.changed_count st.unchanged_count }
    else st
  ((st'.failed, st'.changed, st'.message), st', w)

/-- Method `run`: execute `_run` swallowing `MasException` (but not a
`TypeError`, which Python would propagate out of `run`), then finish. -/
def Mas.run (cfg : MasConfig) (pkgs : List String) (state : String)
    (st : MasState) (w : World) :
    Except PyExc ((Bool × Bool × String) × MasState × World) :=
  match Mas.run_aux cfg pkgs state st w with
  | (Except.error PyExc.type, _, _) => Except.error PyExc.type
  | (_, st1, w1) => Except.ok (Mas.run_finish st1 w1)

/-- A non-mutating query command: the `list` or `outdated` subcommand of
the configured binary.  Everything else (in particular the `install`
subcommand) is a mutating invocation. -/
def queryCmd (cfg : MasConfig) (cmd : List String) : Prop :=
  cmd = [cfg.mas_path, "list"] ∨ cmd = [cfg.mas_path, "outdated"]

/-! Basic lemmas about the embedded primitives. -/

theorem strFind_nil (l : List Char) : strFind [] l = true := by
  cases l <;> simp [strFind, List.isPrefixOf]

theorem splitOnNewline_ne_nil (cs : List Char) : splitOnNewline cs ≠ [] := by
  induction cs with
  | nil => simp [splitOnNewline]
  | cons c rest ih =>
    simp only [splitOnNewline]
    split
    · simp
    · cases h : splitOnNewline rest with
      | nil => simp
      | cons l ls => simp [h]

theorem findsPackage_empty (out : String) : findsPackage "" out = true := by
  unfold findsPackage
  rcases h : splitOnNewline out.toList with _ | ⟨l, ls⟩
  · exact absurd h (splitOnNewline_ne_nil out.toList)
  · simp [strFind_nil]

/-! Characterizations of the inspector queries on a valid current package. -/

theorem is_installed_some (cfg : MasConfig) (st : MasState) (w : World) (p : String)
    (hcp : st.current_package = some p) (hval : Mas.valid_package (some p) = true) :
    Mas.current_package_is_installed cfg st w =
      (Except.ok (findsPackage p (w.responses.headD (0, "", "")).2.1), st,
       { responses := w.responses.tail, trace := w.trace ++ [[cfg.mas_path, "list"]] }) := by
  simp [Mas.current_package_is_installed, World.run_command, hcp, hval]

theorem is_outdated_some (cfg : MasConfig) (st : MasState) (w : World) (p : String)
    (hcp : st.current_package = some p) (hval : Mas.valid_package (some p) = true) :
    Mas.current_package_is_outdated cfg st w =
      (Except.ok (findsPackage p (w.responses.headD (0, "", "")).2.1),
       { responses := w.responses.tail, trace := w.trace ++ [[cfg.mas_path, "outdated"]] }) := by
  simp [Mas.current_package_is_outdated, World.run_command, hcp, hval]

/-! Characterizations of the conjunctive upgrade gate under each
combination of oracle answers, over an explicit response script. -/

theorem upgrade_gate_up_to_date (cfg : MasConfig) (st : MasState) (p : String)
    (rc1 : Int) (out1 err1 : String) (rc2 : Int) (out2 err2 : String)
    (rs : List CommandResult) (tr : List (List String))
    (hcp : st.current_package = some p) (hval : Mas.valid_package (some p) = true)
    (h1 : findsPackage p out1 = true) (h2 : findsPackage p out2 = false) :
    upgrade_gate cfg st ⟨(rc1, out1, err1) :: (rc2, out2, err2) :: rs, tr⟩ =
      (Except.ok true, st,
       ⟨rs, tr ++ [[cfg.mas_path, "list"], [cfg.mas_path, "outdated"]]⟩) := by
  have e1 := is_installed_some cfg st ⟨(rc1, out1, err1) :: (rc2, out2, err2) :: rs, tr⟩ p hcp hval
  have e2 := is_outdated_some cfg st
    ⟨(rc2, out2, err2) :: rs, tr ++ [[cfg.mas_path, "list"]]⟩ p hcp hval
  simp only [List.headD_cons, List.tail_cons] at e1 e2
  simp [upgrade_gate, e1, e2, h1, h2]

theorem upgrade_gate_not_installed (cfg : MasConfig) (st : MasState) (p : String)
    (rc1 : Int) (out1 err1 : String) (rs : List CommandResult) (tr : List (List String))
    (hcp : st.current_package = some p) (hval : Mas.valid_package (some p) = true)
    (h1 : findsPackage p out1 = false) :
    upgrade_gate cfg st ⟨(rc1, out1, err1) :: rs, tr⟩ =
      (Except.ok false, st, ⟨rs, tr ++ [[cfg.mas_path, "list"]]⟩) := by
  have e1 := is_installed_some cfg st ⟨(rc1, out1, err1) :: rs, tr⟩ p hcp hval
  simp only [List.headD_cons, List.tail_cons] at e1
  simp [upgrade_gate, e1, h1]

theorem upgrade_gate_outdated (cfg : MasConfig) (st : MasState) (p : String)
    (rc1 : Int) (out1 err1 : String) (rc2 : Int) (out2 err2 : String)
    (rs : List CommandResult) (tr : List (List String))
    (hcp : st.current_package = some p) (hval : Mas.valid_package (some p) = true)
    (h1 : findsPackage p out1 = true) (h2 : findsPackage p out2 = true) :
    upgrade_gate cfg st ⟨(rc1, out1, err1) :: (rc2, out2, err2) :: rs, tr⟩ =
      (Except.ok false, st,
       ⟨rs, tr ++ [[cfg.mas_path, "list"], [cfg.mas_path, "outdated"]]⟩) := by
  have e1 := is_installed_some cfg st ⟨(rc1, out1, err1) :: (rc2, out2, err2) :: rs, tr⟩ p hcp hval
  have e2 := is_outdated_some cfg st
    ⟨(rc2, out2, err2) :: rs, tr ++ [[cfg.mas_path, "list"]]⟩ p hcp hval
  simp only [List.headD_cons, List.tail_cons] at e1 e2
  simp [upgrade_gate, e1, e2, h1, h2]

/-! Per-scenario characterizations of `_install_current_package`. -/

theorem install_already (cfg : MasConfig) (st : MasState) (w : World) (p : String)
    (hcp : st.current_package = some p) (hval : Mas.valid_package (some p) = true)
    (h : findsPackage p (w.responses.headD (0, "", "")).2.1 = true) :
    Mas.install_current_package cfg st w =
      (Except.ok true,
       { st with unchanged_count := st.unchanged_count + 1,
                 message := "Package already installed: " ++ p },
       { responses := w.responses.tail, trace := w.trace ++ [[cfg.mas_path, "list"]] }) := by
  have e1 := is_installed_some cfg st w p hcp hval
  simp only [List.headD_eq_head?] at h e1
  simp [Mas.install_current_package, e1, hcp, hval, h, pyFormatOpt]

theorem install_check_mode (cfg : MasConfig) (st : MasState) (w : World) (p : String)
    (hcp : st.current_package = some p) (hval : Mas.valid_package (some p) = true)
    (hcm : cfg.check_mode = true)
    (h : findsPackage p (w.responses.headD (0, "", "")).2.1 = false) :
    Mas.install_current_package cfg st w =
      (Except.error (PyExc.mas ("Package would be installed: " ++ p)),
       { st with changed := true, message := "Package would be installed: " ++ p },
       { responses := w.responses.tail, trace := w.trace ++ [[cfg.mas_path, "list"]] }) := by
  have e1 := is_installed_some cfg st w p hcp hval
  simp only [List.headD_eq_head?] at h e1
  simp [Mas.install_current_package, e1, hcp, hval, hcm, h, pyFormatOpt]

theorem install_success (cfg : MasConfig) (st : MasState) (p : String)
    (rc1 : Int) (out1 err1 : String) (rc2 : Int) (out2 err2 : String)
    (rc3 : Int) (out3 err3 : String) (rs : List CommandResult) (tr : List (List String))
    (hcp : st.current_package = some p) (hval : Mas.valid_package (some p) = true)
    (hcm : cfg.check_mode = false)
    (h1 : findsPackage p out1 = false) (h3 : findsPackage p out3 = true) :
    Mas.install_current_package cfg st
        ⟨(rc1, out1, err1) :: (rc2, out2, err2) :: (rc3, out3, err3) :: rs, tr⟩ =
      (Except.ok true,
       { st with changed_count := st.changed_count + 1, changed := true,
                 message := "Package installed: " ++ p },
       ⟨rs, tr ++ [[cfg.mas_path, "list"], installCmd cfg p, [cfg.mas_path, "list"]]⟩) := by
  have e1 := is_installed_some cfg st
    ⟨(rc1, out1, err1) :: (rc2, out2, err2) :: (rc3, out3, err3) :: rs, tr⟩ p hcp hval
  have e2 := is_installed_some cfg st
    ⟨(rc3, out3, err3) :: rs, tr ++ [[cfg.mas_path, "list"], installCmd cfg p]⟩ p hcp hval
  simp only [List.headD_cons, List.tail_cons] at e1 e2
  simp [Mas.install_current_package, World.run_command, e1, e2, hcp, hval, hcm, h1, h3,
        pyFormatOpt]

theorem install_fails (cfg : MasConfig) (st : MasState) (p : String)
    (rc1 : Int) (out1 err1 : String) (rc2 : Int) (out2 err2 : String)
    (rc3 : Int) (out3 err3 : String) (rs : List CommandResult) (tr : List (List String))
    (hcp : st.current_package = some p) (hval : Mas.valid_package (some p) = true)
    (hcm : cfg.check_mode = false)
    (h1 : findsPackage p out1 = false) (h3 : findsPackage p out3 = false) :
    Mas.install_current_package cfg st
        ⟨(rc1, out1, err1) :: (rc2, out2, err2) :: (rc3, out3, err3) :: rs, tr⟩ =
      (Except.error (PyExc.mas (pyStrip err2)),
       { st with failed := true, message := pyStrip err2 },
       ⟨rs, tr ++ [[cfg.mas_path, "list"], installCmd cfg p, [cfg.mas_path, "list"]]⟩) := by
  have e1 := is_installed_some cfg st
    ⟨(rc1, out1, err1) :: (rc2, out2, err2) :: (rc3, out3, err3) :: rs, tr⟩ p hcp hval
  have e2 := is_installed_some cfg st
    ⟨(rc3, out3, err3) :: rs, tr ++ [[cfg.mas_path, "list"], installCmd cfg p]⟩ p hcp hval
  simp only [List.headD_cons, List.tail_cons] at e1 e2
  simp [Mas.install_current_package, World.run_command, e1, e2, hcp, hval, hcm, h1, h3,
        pyFormatOpt]

/-! Per-scenario characterizations of `_upgrade_current_package`. -/

theorem upgrade_already (cfg : MasConfig) (st : MasState) (p : String)
    (rc1 : Int) (out1 err1 : String) (rc2 : Int) (out2 err2 : String)
    (rs : List CommandResult) (tr : List (List String))
    (hcp : st.current_package = some p) (hval : Mas.valid_package (some p) = true)
    (h1 : findsPackage p out1 = true) (h2 : findsPackage p out2 = false) :
    Mas.upgrade_current_package cfg st ⟨(rc1, out1, err1) :: (rc2, out2, err2) :: rs, tr⟩ =
      (Except.ok true,
       { st with message := "Package is already upgraded: " ++ p,
                 unchanged_count := st.unchanged_count + 1 },
       ⟨rs, tr ++ [[cfg.mas_path, "list"], [cfg.mas_path, "outdated"]]⟩) := by
  have eg := upgrade_gate_up_to_date cfg st p rc1 out1 err1 rc2 out2 err2 rs tr hcp hval h1 h2
  simp [Mas.upgrade_current_package, eg, hcp, hval, pyFormatOpt]

theorem upgrade_check_mode_not_installed (cfg : MasConfig) (st : MasState) (p : String)
    (rc1 : Int) (out1 err1 : String) (rs : List CommandResult) (tr : List (List String))
    (hcp : st.current_package = some p) (hval : Mas.valid_package (some p) = true)
    (hcm : cfg.check_mode = true) (h1 : findsPackage p out1 = false) :
    Mas.upgrade_current_package cfg st ⟨(rc1, out1, err1) :: rs, tr⟩ =
      (Except.error (PyExc.mas ("Package would be upgraded: " ++ p)),
       { st with changed := true, message := "Package would be upgraded: " ++ p },
       ⟨rs, tr ++ [[cfg.mas_path, "list"]]⟩) := by
  have eg := upgrade_gate_not_installed cfg st p rc1 out1 err1 rs tr hcp hval h1
  simp [Mas.upgrade_current_package, eg, hcp, hval, hcm, pyFormatOpt]

theorem upgrade_check_mode_outdated (cfg : MasConfig) (st : MasState) (p : String)
    (rc1 : Int) (out1 err1 : String) (rc2 : Int) (out2 err2 : String)
    (rs : List CommandResult) (tr : List (List String))
    (hcp : st.current_package = some p) (hval : Mas.valid_package (some p) = true)
    (hcm : cfg.check_mode = true)
    (h1 : findsPackage p out1 = true) (h2 : findsPackage p out2 = true) :
    Mas.upgrade_current_package cfg st ⟨(rc1, out1, err1) :: (rc2, out2, err2) :: rs, tr⟩ =
      (Except.error (PyExc.mas ("Package would be upgraded: " ++ p)),
       { st with changed := true, message := "Package would be upgraded: " ++ p },
       ⟨rs, tr ++ [[cfg.mas_path, "list"], [cfg.mas_path, "outdated"]]⟩) := by
  have eg := upgrade_gate_outdated cfg st p rc1 out1 err1 rc2 out2 err2 rs tr hcp hval h1 h2
  simp [Mas.upgrade_current_package, eg, hcp, hval, hcm, pyFormatOpt]

theorem upgrade_success_after_outdated (cfg : MasConfig) (st : MasState) (p : String)
    (rc1 : Int) (out1 err1 : String) (rc2 : Int) (out2 err2 : String)
    (rc3 : Int) (out3 err3 : String) (rc4 : Int) (out4 err4 : String)
    (rc5 : Int) (out5 err5 : String) (rs : List CommandResult) (tr : List (List String))
    (hcp : st.current_package = some p) (hval : Mas.valid_package (some p) = true)
    (hcm : cfg.check_mode = false)
    (h1 : findsPackage p out1 = true) (h2 : findsPackage p out2 = true)
    (h4 : findsPackage p out4 = true) (h5 : findsPackage p out5 = false) :
    Mas.upgrade_current_package cfg st
        ⟨(rc1, out1, err1) :: (rc2, out2, err2) :: (rc3, out3, err3) ::
         (rc4, out4, err4) :: (rc5, out5, err5) :: rs, tr⟩ =
      (Except.ok true,
       { st with changed_count := st.changed_count + 1, changed := true,
                 message := "Package upgraded: " ++ p },
       ⟨rs, tr ++ [[cfg.mas_path, "list"], [cfg.mas_path, "outdated"], installCmd cfg p,
                   [cfg.mas_path, "list"], [cfg.mas_path, "outdated"]]⟩) := by
  have eg1 := upgrade_gate_outdated cfg st p rc1 out1 err1 rc2 out2 err2
    ((rc3, out3, err3) :: (rc4, out4, err4) :: (rc5, out5, err5) :: rs) tr hcp hval h1 h2
  have eg2 := upgrade_gate_up_to_date cfg st p rc4 out4 err4 rc5 out5 err5 rs
    (tr ++ [[cfg.mas_path, "list"], [cfg.mas_path, "outdated"], installCmd cfg p])
    hcp hval h4 h5
  simp [Mas.upgrade_current_package, World.run_command, eg1, eg2, hcp, hval, hcm, pyFormatOpt]

theorem upgrade_fail_after_outdated (cfg : MasConfig) (st : MasState) (p : String)
    (rc1 : Int) (out1 err1 : String) (rc2 : Int) (out2 err2 : String)
    (rc3 : Int) (out3 err3 : String) (rc4 : Int) (out4 err4 : String)
    (rs : List CommandResult) (tr : List (List String))
    (hcp : st.current_package = some p) (hval : Mas.valid_package (some p) = true)
    (hcm : cfg.check_mode = false)
    (h1 : findsPackage p out1 = true) (h2 : findsPackage p out2 = true)
    (h4 : findsPackage p out4 = false) :
    Mas.upgrade_current_package cfg st
        ⟨(rc1, out1, err1) :: (rc2, out2, err2) :: (rc3, out3, err3) ::
         (rc4, out4, err4) :: rs, tr⟩ =
      (Except.error (PyExc.mas (pyStrip err3)),
       { st with failed := true, message := pyStrip err3 },
       ⟨rs, tr ++ [[cfg.mas_path, "list"], [cfg.mas_path, "outdated"], installCmd cfg p,
                   [cfg.mas_path, "list"]]⟩) := by
  have eg1 := upgrade_gate_outdated cfg st p rc1 out1 err1 rc2 out2 err2
    ((rc3, out3, err3) :: (rc4, out4, err4) :: rs) tr hcp hval h1 h2
  have eg2 := upgrade_gate_not_installed cfg st p rc4 out4 err4 rs
    (tr ++ [[cfg.mas_path, "list"], [cfg.mas_path, "outdated"], installCmd cfg p])
    hcp hval h4
  simp [Mas.upgrade_current_package, World.run_command, eg1, eg2, hcp, hval, hcm, pyFormatOpt]

theorem upgrade_success_not_installed (cfg : MasConfig) (st : MasState) (p : String)
    (rc1 : Int) (out1 err1 : String) (rc2 : Int) (out2 err2 : String)
    (rc3 : Int) (out3 err3 : String) (rc4 : Int) (out4 err4 : String)
    (rs : List CommandResult) (tr : List (List String))
    (hcp : st.current_package = some p) (hval : Mas.valid_package (some p) = true)
    (hcm : cfg.check_mode = false)
    (h1 : findsPackage p out1 = false) (h3 : findsPackage p out3 = true)
    (h4 : findsPackage p out4 = false) :
    Mas.upgrade_current_package cfg st
        ⟨(rc1, out1, err1) :: (rc2, out2, err2) :: (rc3, out3, err3) ::
         (rc4, out4, err4) :: rs, tr⟩ =
      (Except.ok true,
       { st with changed_count := st.changed_count + 1, changed := true,
                 message := "Package upgraded: " ++ p },
       ⟨rs, tr ++ [[cfg.mas_path, "list"], installCmd cfg p,
                   [cfg.mas_path, "list"], [cfg.mas_path, "outdated"]]⟩) := by
  have eg1 := upgrade_gate_not_installed cfg st p rc1 out1 err1
    ((rc2, out2, err2) :: (rc3, out3, err3) :: (rc4, out4, err4) :: rs) tr hcp hval h1
  have eg2 := upgrade_gate_up_to_date cfg st p rc3 out3 err3 rc4 out4 err4 rs
    (tr ++ [[cfg.mas_path, "list"], installCmd cfg p]) hcp hval h3 h4
  simp [Mas.upgrade_current_package, World.run_command, eg1, eg2, hcp, hval, hcm, pyFormatOpt]

theorem upgrade_fail_not_installed (cfg : MasConfig) (st : MasState) (p : String)
    (rc1 : Int) (out1 err1 : String) (rc2 : Int) (out2 err2 : String)
    (rc3 : Int) (out3 err3 : String) (rs : List CommandResult) (tr : List (List String))
    (hcp : st.current_package = some p) (hval : Mas.valid_package (some p) = true)
    (hcm : cfg.check_mode = false)
    (h1 : findsPackage p out1 = false) (h3 : findsPackage p out3 = false) :
    Mas.upgrade_current_package cfg st
        ⟨(rc1, out1, err1) :: (rc2, out2, err2) :: (rc3, out3, err3) :: rs, tr⟩ =
      (Except.error (PyExc.mas (pyStrip err2)),
       { st with failed := true, message := pyStrip err2 },
       ⟨rs, tr ++ [[cfg.mas_path, "list"], installCmd cfg p, [cfg.mas_path, "list"]]⟩) := by
  have eg1 := upgrade_gate_not_installed cfg st p rc1 out1 err1
    ((rc2, out2, err2) :: (rc3, out3, err3) :: rs) tr hcp hval h1
  have eg2 := upgrade_gate_not_installed cfg st p rc3 out3 err3 rs
    (tr ++ [[cfg.mas_path, "list"], installCmd cfg p]) hcp hval h3
  simp [Mas.upgrade_current_package, World.run_command, eg1, eg2, hcp, hval, hcm, pyFormatOpt]

/-! Plumbing lemmas for the batch loops and `Mas.run`. -/

theorem set_current_package_valid (st : MasState) (p : String)
    (hval : Mas.valid_package (some p) = true) :
    Mas.set_current_package st (some p) =
      (Except.ok (), { st with current_package := some p }) := by
  simp [Mas.set_current_package, hval]

theorem install_step_valid (cfg : MasConfig) (p : String) (st : MasState) (w : World)
    (hval : Mas.valid_package (some p) = true) :
    install_step cfg p st w =
      Mas.install_current_package cfg { st with current_package := some p } w := by
  simp [install_step, set_current_package_valid st p hval]

theorem upgrade_step_valid (cfg : MasConfig) (p : String) (st : MasState) (w : World)
    (hval : Mas.valid_package (some p) = true) :
    upgrade_step cfg p st w =
      Mas.upgrade_current_package cfg { st with current_package := some p } w := by
  simp [upgrade_step, set_current_package_valid st p hval]

theorem install_packages_cons_err (cfg : MasConfig) (p : String) (rest : List String)
    (st : MasState) (w : World) (e : PyExc) (st1 : MasState) (w1 : World)
    (h : install_step cfg p st w = (Except.error e, st1, w1)) :
    Mas.install_packages cfg (p :: rest) st w = (Except.error e, st1, w1) := by
  simp [Mas.install_packages, h]

theorem install_packages_cons_ok (cfg : MasConfig) (p : String) (rest : List String)
    (st : MasState) (w : World) (b : Bool) (st1 : MasState) (w1 : World)
    (h : install_step cfg p st w = (Except.ok b, st1, w1)) :
    Mas.install_packages cfg (p :: rest) st w = Mas.install_packages cfg rest st1 w1 := by
  simp [Mas.install_packages, h]

theorem upgrade_packages_cons_err (cfg : MasConfig) (p : String) (rest : List String)
    (st : MasState) (w : World) (e : PyExc) (st1 : MasState) (w1 : World)
    (h : upgrade_step cfg p st w = (Except.error e, st1, w1)) :
    Mas.upgrade_packages cfg (p :: rest) st w = (Except.error e, st1, w1) := by
  simp [Mas.upgrade_packages, h]

theorem upgrade_packages_cons_ok (cfg : MasConfig) (p : String) (rest : List String)
    (st : MasState) (w : World) (b : Bool) (st1 : MasState) (w1 : World)
    (h : upgrade_step cfg p st w = (Except.ok b, st1, w1)) :
    Mas.upgrade_packages cfg (p :: rest) st w = Mas.upgrade_packages cfg rest st1 w1 := by
  simp [Mas.upgrade_packages, h]

theorem run_aux_present (cfg : MasConfig) (p : String) (rest : List String)
    (st : MasState) (w : World) :
    Mas.run_aux cfg (p :: rest) "present" st w =
      Mas.install_packages cfg (p :: rest) st w := rfl

theorem run_aux_latest (cfg : MasConfig) (p : String) (rest : List String)
    (st : MasState) (w : World) :
    Mas.run_aux cfg (p :: rest) "latest" st w =
      Mas.upgrade_packages cfg (p :: rest) st w := rfl

theorem run_of_aux_mas (cfg : MasConfig) (pkgs : List String) (state : String)
    (st : MasState) (w : World) (m : String) (st1 : MasState) (w1 : World)
    (h : Mas.run_aux cfg pkgs state st w = (Except.error (PyExc.mas m), st1, w1)) :
    Mas.run cfg pkgs state st w = Except.ok (Mas.run_finish st1 w1) := by
  simp [Mas.run, h]

theorem run_of_aux_ok (cfg : MasConfig) (pkgs : List String) (state : String)
    (st : MasState) (w : World) (b : Bool) (st1 : MasState) (w1 : World)
    (h : Mas.run_aux cfg pkgs state st w = (Except.ok b, st1, w1)) :
    Mas.run cfg pkgs state st w = Except.ok (Mas.run_finish st1 w1) := by
  simp [Mas.run, h]

theorem run_finish_failed (st : MasState) (w : World) (h : st.failed = true) :
    Mas.run_finish st w = ((true, st.changed, st.message), st, w) := by
  simp [Mas.run_finish, h]

/-! Claim C6: package identifier validation. -/

/-- C6: isValidPackageIdentifier (valid_package) returns true for absent
(None) input and for every string consisting only of decimal digit
characters, and returns false for every string containing at least one
non-digit character. -/
theorem valid_package_spec :
    Mas.valid_package none = true ∧
    (∀ s : String, (∀ c ∈ s.toList, isPyDigit c = true) →
      Mas.valid_package (some s) = true) ∧
    (∀ s : String, ∀ c ∈ s.toList, isPyDigit c = false →
      Mas.valid_package (some s) = false) := by
  refine ⟨rfl, ?_, ?_⟩
  · intro s h
    simpa [Mas.valid_package, List.all_eq_true] using h
  · intro s c hc hdig
    simp only [Mas.valid_package, List.all_eq_false]
    exact ⟨c, hc, by simp [hdig]⟩

theorem valid_package_spec_witness :
    Mas.valid_package none = true ∧
    Mas.valid_package (some "0123456789") = true ∧
    Mas.valid_package (some "12a3") = false :=
  ⟨valid_package_spec.1,
   valid_package_spec.2.1 "0123456789" (by decide),
   valid_package_spec.2.2 "12a3" 'a' (by decide) (by decide)⟩

/-! Claim C7: executable path validation. -/

/-- C7: isValidExecutablePath (valid_mas_path) returns true for absent
(None) input and for every string containing only word characters,
whitespace, the platform path separator, dots, and dashes, and returns
false for every string containing any other character, including the
shell metacharacters ';', '$' and '|'. -/
theorem valid_mas_path_spec :
    Mas.valid_mas_path none = true ∧
    (∀ s : String, (∀ c ∈ s.toList, isValidMasPathChar c = true) →
      Mas.valid_mas_path (some s) = true) ∧
    (∀ s : String, ∀ c ∈ s.toList, isValidMasPathChar c = false →
      Mas.valid_mas_path (some s) = false) ∧
    isValidMasPathChar ';' = false ∧
    isValidMasPathChar '$' = false ∧
    isValidMasPathChar '|' = false := by
  refine ⟨rfl, ?_, ?_, by decide, by decide, by decide⟩
  · intro s h
    simpa [Mas.valid_mas_path, List.all_eq_true] using h
  · intro s c hc hbad
    simp only [Mas.valid_mas_path, List.all_eq_false]
    exact ⟨c, hc, by simp [hbad]⟩

theorem valid_mas_path_spec_witness :
    Mas.valid_mas_path none = true ∧
    Mas.valid_mas_path (some "/usr/local/bin/mas") = true ∧
    Mas.valid_mas_path (some "/bin/mas; rm -rf x") = false ∧
    Mas.valid_mas_path (some "$HOME/mas") = false ∧
    Mas.valid_mas_path (some "mas|tee") = false :=
  ⟨valid_mas_path_spec.1,
   valid_mas_path_spec.2.1 "/usr/local/bin/mas" (by decide),
   valid_mas_path_spec.2.2.1 "/bin/mas; rm -rf x" ';' (by decide) (by decide),
   valid_mas_path_spec.2.2.1 "$HOME/mas" '$' (by decide) (by decide),
   valid_mas_path_spec.2.2.1 "mas|tee" '|' (by decide) (by decide)⟩

/-! Claim C8: asymmetric error handling of the two inspector queries on an
invalid package identifier. -/

/-- C8: for every package identifier failing validation, isInstalled
raises (with failed set and message 'Invalid package: {id}.') without
invoking the package manager, whereas isOutdated returns false without
signaling any error and without invoking the package manager (the world,
and hence the command trace, is unchanged in both cases). -/
theorem invalid_package_queries (cfg : MasConfig) (st : MasState) (w : World)
    (h : Mas.valid_package st.current_package = false) :
    Mas.current_package_is_installed cfg st w =
      (Except.error (PyExc.mas (invalidPackageMsg st.current_package)),
       { st with failed := true, message := invalidPackageMsg st.current_package },
       w) ∧
    Mas.current_package_is_outdated cfg st w = (Except.ok false, w) := by
  constructor
  · simp [Mas.current_package_is_installed, h]
  · simp [Mas.current_package_is_outdated, h]

theorem invalid_package_queries_witness :
    Mas.current_package_is_installed { mas_path := "mas", check_mode := false }
        { Mas.setup_status_vars with current_package := some "abc" }
        { responses := [], trace := [] } =
      (Except.error (PyExc.mas (invalidPackageMsg (some "abc"))),
       { Mas.setup_status_vars with
           current_package := some "abc", failed := true,
           message := invalidPackageMsg (some "abc") },
       { responses := [], trace := [] }) ∧
    Mas.current_package_is_outdated { mas_path := "mas", check_mode := false }
        { Mas.setup_status_vars with current_package := some "abc" }
        { responses := [], trace := [] } =
      (Except.ok false, { responses := [], trace := [] }) ∧
    invalidPackageMsg (some "abc") = "Invalid package: abc." :=
  ⟨(invalid_package_queries _ _ _ (by decide)).1,
   (invalid_package_queries _ _ _ (by decide)).2,
   rfl⟩

/-! Claim C10: the empty identifier passes validation and is always seen
as installed. -/

/-- C10: the empty string passes package validation; for the empty
identifier the installed-check returns true for every possible `list`
output (every line contains the empty string as a substring); hence under
'present' an empty identifier is always classified as already installed
and the mutating subcommand is never reached (the only command issued is
the `list` query). -/
theorem empty_package_always_installed :
    Mas.valid_package (some "") = true ∧
    (∀ out : String, findsPackage "" out = true) ∧
    (∀ (cfg : MasConfig) (st : MasState) (w : World), st.current_package = some "" →
      Mas.install_current_package cfg st w =
        (Except.ok true,
         { st with unchanged_count := st.unchanged_count + 1,
                   message := "Package already installed: " },
         { responses := w.responses.tail,
           trace := w.trace ++ [[cfg.mas_path, "list"]] })) := by
  refine ⟨rfl, findsPackage_empty, ?_⟩
  intro cfg st w hcp
  exact install_already cfg st w "" hcp rfl (findsPackage_empty _)

theorem empty_package_always_installed_witness :
    findsPackage "" "" = true ∧
    findsPackage "" "5 Foo\n6 Bar" = true ∧
    Mas.install_current_package { mas_path := "mas", check_mode := true }
        { Mas.setup_status_vars with current_package := some "" }
        { responses := [], trace := [] } =
      (Except.ok true,
       { Mas.setup_status_vars with
           current_package := some "",
           unchanged_count := 1, message := "Package already installed: " },
       { responses := [], trace := [["mas", "list"]] }) :=
  ⟨empty_package_always_installed.2.1 "",
   empty_package_always_installed.2.1 "5 Foo\n6 Bar",
   empty_package_always_installed.2.2 _ _ _ rfl⟩

/-! Claim C3: a failure freezes the batch. -/

/-- C3: once the status accumulator's failed flag becomes true (which in
the code always coincides with a MasException aborting the loop), no
subsequent package in the batch is queried or mutated (the world, and
hence the command trace, stays exactly as the failing step left it), the
counts are not modified afterwards (the final state is the failing
step's state), and the final result of run carries the failing package's
message with no aggregate overwrite. -/
theorem failed_freezes_batch (cfg : MasConfig) (st0 : MasState) (w : World)
    (p : String) (rest : List String) (m : String) (st1 : MasState) (w1 : World) :
    (install_step cfg p st0 w = (Except.error (PyExc.mas m), st1, w1) →
      st1.failed = true →
      Mas.install_packages cfg (p :: rest) st0 w = (Except.error (PyExc.mas m), st1, w1) ∧
      Mas.run cfg (p :: rest) "present" st0 w =
        Except.ok ((true, st1.changed, st1.message), st1, w1)) ∧
    (upgrade_step cfg p st0 w = (Except.error (PyExc.mas m), st1, w1) →
      st1.failed = true →
      Mas.upgrade_packages cfg (p :: rest) st0 w = (Except.error (PyExc.mas m), st1, w1) ∧
      Mas.run cfg (p :: rest) "latest" st0 w =
        Except.ok ((true, st1.changed, st1.message), st1, w1)) := by
  constructor
  · intro h hf
    have hl := install_packages_cons_err cfg p rest st0 w _ st1 w1 h
    refine ⟨hl, ?_⟩
    have hr := run_of_aux_mas cfg (p :: rest) "present" st0 w m st1 w1
      (by rw [run_aux_present]; exact hl)
    rw [hr, run_finish_failed st1 w1 hf]
  · intro h hf
    have hl := upgrade_packages_cons_err cfg p rest st0 w _ st1 w1 h
    refine ⟨hl, ?_⟩
    have hr := run_of_aux_mas cfg (p :: rest) "latest" st0 w m st1 w1
      (by rw [run_aux_latest]; exact hl)
    rw [hr, run_finish_failed st1 w1 hf]

theorem failed_freezes_batch_witness :
    Mas.install_packages ⟨"mas", false⟩ ["1", "2"] Mas.setup_status_vars
        ⟨[(0, "", ""), (1, "", " boom \n"), (0, "", "")], []⟩ =
      (Except.error (PyExc.mas "boom"),
       { failed := true, changed := false, changed_count := 0, unchanged_count := 0,
         message := "boom", current_package := some "1" },
       ⟨[], [["mas", "list"], ["mas", "install", "1"], ["mas", "list"]]⟩) ∧
    Mas.run ⟨"mas", false⟩ ["1", "2"] "present" Mas.setup_status_vars
        ⟨[(0, "", ""), (1, "", " boom \n"), (0, "", "")], []⟩ =
      Except.ok ((true, false, "boom"),
        { failed := true, changed := false, changed_count := 0, unchanged_count := 0,
          message := "boom", current_package := some "1" },
        ⟨[], [["mas", "list"], ["mas", "install", "1"], ["mas", "list"]]⟩) ∧
    Mas.upgrade_packages ⟨"mas", false⟩ ["7", "8"] Mas.setup_status_vars
        ⟨[(0, "", ""), (1, "", " nope \n"), (0, "", "")], []⟩ =
      (Except.error (PyExc.mas "nope"),
       { failed := true, changed := false, changed_count := 0, unchanged_count := 0,
         message := "nope", current_package := some "7" },
       ⟨[], [["mas", "list"], ["mas", "install", "7"], ["mas", "list"]]⟩) :=
  ⟨((failed_freezes_batch ⟨"mas", false⟩ Mas.setup_status_vars
      ⟨[(0, "", ""), (1, "", " boom \n"), (0, "", "")], []⟩ "1" ["2"] "boom"
      { failed := true, changed := false, changed_count := 0, unchanged_count := 0,
        message := "boom", current_package := some "1" }
      ⟨[], [["mas", "list"], ["mas", "install", "1"], ["mas", "list"]]⟩).1
      rfl rfl).1,
   ((failed_freezes_batch ⟨"mas", false⟩ Mas.setup_status_vars
      ⟨[(0, "", ""), (1, "", " boom \n"), (0, "", "")], []⟩ "1" ["2"] "boom"
      { failed := true, changed := false, changed_count := 0, unchanged_count := 0,
        message := "boom", current_package := some "1" }
      ⟨[], [["mas", "list"], ["mas", "install", "1"], ["mas", "list"]]⟩).1
      rfl rfl).2,
   ((failed_freezes_batch ⟨"mas", false⟩ Mas.setup_status_vars
      ⟨[(0, "", ""), (1, "", " nope \n"), (0, "", "")], []⟩ "7" ["8"] "nope"
      { failed := true, changed := false, changed_count := 0, unchanged_count := 0,
        message := "nope", current_package := some "7" }
      ⟨[], [["mas", "list"], ["mas", "install", "7"], ["mas", "list"]]⟩).2
      rfl rfl).1⟩

theorem upgrade_fail_still_outdated (cfg : MasConfig) (st : MasState) (p : String)
    (rc1 : Int) (out1 err1 : String) (rc2 : Int) (out2 err2 : String)
    (rc3 : Int) (out3 err3 : String) (rc4 : Int) (out4 err4 : String)
    (rc5 : Int) (out5 err5 : String) (rs : List CommandResult) (tr : List (List String))
    (hcp : st.current_package = some p) (hval : Mas.valid_package (some p) = true)
    (hcm : cfg.check_mode = false)
    (h1 : findsPackage p out1 = true) (h2 : findsPackage p out2 = true)
    (h4 : findsPackage p out4 = true) (h5 : findsPackage p out5 = true) :
    Mas.upgrade_current_package cfg st
        ⟨(rc1, out1, err1) :: (rc2, out2, err2) :: (rc3, out3, err3) ::
         (rc4, out4, err4) :: (rc5, out5, err5) :: rs, tr⟩ =
      (Except.error (PyExc.mas (pyStrip err3)),
       { st with failed := true, message := pyStrip err3 },
       ⟨rs, tr ++ [[cfg.mas_path, "list"], [cfg.mas_path, "outdated"], installCmd cfg p,
                   [cfg.mas_path, "list"], [cfg.mas_path, "outdated"]]⟩) := by
  have eg1 := upgrade_gate_outdated cfg st p rc1 out1 err1 rc2 out2 err2
    ((rc3, out3, err3) :: (rc4, out4, err4) :: (rc5, out5, err5) :: rs) tr hcp hval h1 h2
  have eg2 := upgrade_gate_outdated cfg st p rc4 out4 err4 rc5 out5 err5 rs
    (tr ++ [[cfg.mas_path, "list"], [cfg.mas_path, "outdated"], installCmd cfg p])
    hcp hval h4 h5
  simp [Mas.upgrade_current_package, World.run_command, eg1, eg2, hcp, hval, hcm, pyFormatOpt]

theorem upgrade_fail_now_outdated (cfg : MasConfig) (st : MasState) (p : String)
    (rc1 : Int) (out1 err1 : String) (rc2 : Int) (out2 err2 : String)
    (rc3 : Int) (out3 err3 : String) (rc4 : Int) (out4 err4 : String)
    (rs : List CommandResult) (tr : List (List String))
    (hcp : st.current_package = some p) (hval : Mas.valid_package (some p) = true)
    (hcm : cfg.check_mode = false)
    (h1 : findsPackage p out1 = false) (h3 : findsPackage p out3 = true)
    (h4 : findsPackage p out4 = true) :
    Mas.upgrade_current_package cfg st
        ⟨(rc1, out1, err1) :: (rc2, out2, err2) :: (rc3, out3, err3) ::
         (rc4, out4, err4) :: rs, tr⟩ =
      (Except.error (PyExc.mas (pyStrip err2)),
       { st with failed := true, message := pyStrip err2 },
       ⟨rs, tr ++ [[cfg.mas_path, "list"], installCmd cfg p,
                   [cfg.mas_path, "list"], [cfg.mas_path, "outdated"]]⟩) := by
  have eg1 := upgrade_gate_not_installed cfg st p rc1 out1 err1
    ((rc2, out2, err2) :: (rc3, out3, err3) :: (rc4, out4, err4) :: rs) tr hcp hval h1
  have eg2 := upgrade_gate_outdated cfg st p rc3 out3 err3 rc4 out4 err4 rs
    (tr ++ [[cfg.mas_path, "list"], installCmd cfg p]) hcp hval h3 h4
  simp [Mas.upgrade_current_package, World.run_command, eg1, eg2, hcp, hval, hcm, pyFormatOpt]

/-! Claim C5: post-mutation re-verification failure. -/

/-- C5: for every package whose post-mutation re-verification fails
(isInstalled false under 'present'; not installed, or installed but still
outdated, under 'latest' — in every combination with the pre-mutation
gate shape), the run ends with failed=true, the result message equals the
standard-error text of the mutating invocation trimmed of surrounding
whitespace, and the batch is aborted at that package (the trace stops at
the failing package's commands and the remaining responses are never
consumed). -/
theorem mutation_failure_aborts (cfg : MasConfig) (st0 : MasState) (p : String)
    (rest : List String)
    (hval : Mas.valid_package (some p) = true) (hcm : cfg.check_mode = false) :
    (∀ (rc1 : Int) (out1 err1 : String) (rc2 : Int) (out2 err2 : String)
       (rc3 : Int) (out3 err3 : String) (rs : List CommandResult) (tr : List (List String)),
      findsPackage p out1 = false → findsPackage p out3 = false →
      Mas.run cfg (p :: rest) "present" st0
          ⟨(rc1, out1, err1) :: (rc2, out2, err2) :: (rc3, out3, err3) :: rs, tr⟩ =
        Except.ok ((true, st0.changed, pyStrip err2),
          { st0 with current_package := some p, failed := true, message := pyStrip err2 },
          ⟨rs, tr ++ [[cfg.mas_path, "list"], installCmd cfg p, [cfg.mas_path, "list"]]⟩) ∧
      Mas.run cfg (p :: rest) "latest" st0
          ⟨(rc1, out1, err1) :: (rc2, out2, err2) :: (rc3, out3, err3) :: rs, tr⟩ =
        Except.ok ((true, st0.changed, pyStrip err2),
          { st0 with current_package := some p, failed := true, message := pyStrip err2 },
          ⟨rs, tr ++ [[cfg.mas_path, "list"], installCmd cfg p, [cfg.mas_path, "list"]]⟩)) ∧
    (∀ (rc1 : Int) (out1 err1 : String) (rc2 : Int) (out2 err2 : String)
       (rc3 : Int) (out3 err3 : String) (rc4 : Int) (out4 err4 : String)
       (rc5 : Int) (out5 err5 : String) (rs : List CommandResult) (tr : List (List String)),
      findsPackage p out1 = true → findsPackage p out2 = true →
      findsPackage p out4 = true → findsPackage p out5 = true →
      Mas.run cfg (p :: rest) "latest" st0
          ⟨(rc1, out1, err1) :: (rc2, out2, err2) :: (rc3, out3, err3) ::
           (rc4, out4, err4) :: (rc5, out5, err5) :: rs, tr⟩ =
        Except.ok ((true, st0.changed, pyStrip err3),
          { st0 with current_package := some p, failed := true, message := pyStrip err3 },
          ⟨rs, tr ++ [[cfg.mas_path, "list"], [cfg.mas_path, "outdated"], installCmd cfg p,
                      [cfg.mas_path, "list"], [cfg.mas_path, "outdated"]]⟩)) ∧
    (∀ (rc1 : Int) (out1 err1 : String) (rc2 : Int) (out2 err2 : String)
       (rc3 : Int) (out3 err3 : String) (rc4 : Int) (out4 err4 : String)
       (rs : List CommandResult) (tr : List (List String)),
      findsPackage p out1 = true → findsPackage p out2 = true →
      findsPackage p out4 = false →
      Mas.run cfg (p :: rest) "latest" st0
          ⟨(rc1, out1, err1) :: (rc2, out2, err2) :: (rc3, out3, err3) ::
           (rc4, out4, err4) :: rs, tr⟩ =
        Except.ok ((true, st0.changed, pyStrip err3),
          { st0 with current_package := some p, failed := true, message := pyStrip err3 },
          ⟨rs, tr ++ [[cfg.mas_path, "list"], [cfg.mas_path, "outdated"], installCmd cfg p,
                      [cfg.mas_path, "list"]]⟩)) ∧
    (∀ (rc1 : Int) (out1 err1 : String) (rc2 : Int) (out2 err2 : String)
       (rc3 : Int) (out3 err3 : String) (rc4 : Int) (out4 err4 : String)
       (rs : List CommandResult) (tr : List (List String)),
      findsPackage p out1 = false → findsPackage p out3 = true →
      findsPackage p out4 = true →
      Mas.run cfg (p :: rest) "latest" st0
          ⟨(rc1, out1, err1) :: (rc2, out2, err2) :: (rc3, out3, err3) ::
           (rc4, out4, err4) :: rs, tr⟩ =
        Except.ok ((true, st0.changed, pyStrip err2),
          { st0 with current_package := some p, failed := true, message := pyStrip err2 },
          ⟨rs, tr ++ [[cfg.mas_path, "list"], installCmd cfg p,
                      [cfg.mas_path, "list"], [cfg.mas_path, "outdated"]]⟩)) := by
  refine ⟨?_, ?_, ?_, ?_⟩
  · intro rc1 out1 err1 rc2 out2 err2 rc3 out3 err3 rs tr h1 h3
    constructor
    · have hstep : install_step cfg p st0
          ⟨(rc1, out1, err1) :: (rc2, out2, err2) :: (rc3, out3, err3) :: rs, tr⟩ =
          (Except.error (PyExc.mas (pyStrip err2)),
           { st0 with current_package := some p, failed := true, message := pyStrip err2 },
           ⟨rs, tr ++ [[cfg.mas_path, "list"], installCmd cfg p, [cfg.mas_path, "list"]]⟩) := by
        rw [install_step_valid cfg p st0 _ hval]
        exact install_fails cfg { st0 with current_package := some p } p
          rc1 out1 err1 rc2 out2 err2 rc3 out3 err3 rs tr rfl hval hcm h1 h3
      have hl := install_packages_cons_err cfg p rest st0 _ _ _ _ hstep
      have hr := run_of_aux_mas cfg (p :: rest) "present" st0 _ _ _ _
        (by rw [run_aux_present]; exact hl)
      rw [hr, run_finish_failed _ _ rfl]
    · have hstep : upgrade_step cfg p st0
          ⟨(rc1, out1, err1) :: (rc2, out2, err2) :: (rc3, out3, err3) :: rs, tr⟩ =
          (Except.error (PyExc.mas (pyStrip err2)),
           { st0 with current_package := some p, failed := true, message := pyStrip err2 },
           ⟨rs, tr ++ [[cfg.mas_path, "list"], installCmd cfg p, [cfg.mas_path, "list"]]⟩) := by
        rw [upgrade_step_valid cfg p st0 _ hval]
        exact upgrade_fail_not_installed cfg { st0 with current_package := some p } p
          rc1 out1 err1 rc2 out2 err2 rc3 out3 err3 rs tr rfl hval hcm h1 h3
      have hl := upgrade_packages_cons_err cfg p rest st0 _ _ _ _ hstep
      have hr := run_of_aux_mas cfg (p :: rest) "latest" st0 _ _ _ _
        (by rw [run_aux_latest]; exact hl)
      rw [hr, run_finish_failed _ _ rfl]
  · intro rc1 out1 err1 rc2 out2 err2 rc3 out3 err3 rc4 out4 err4 rc5 out5 err5 rs tr
      h1 h2 h4 h5
    have hstep : upgrade_step cfg p st0
        ⟨(rc1, out1, err1) :: (rc2, out2, err2) :: (rc3, out3, err3) ::
         (rc4, out4, err4) :: (rc5, out5, err5) :: rs, tr⟩ =
        (Except.error (PyExc.mas (pyStrip err3)),
         { st0 with current_package := some p, failed := true, message := pyStrip err3 },
         ⟨rs, tr ++ [[cfg.mas_path, "list"], [cfg.mas_path, "outdated"], installCmd cfg p,
                     [cfg.mas_path, "list"], [cfg.mas_path, "outdated"]]⟩) := by
      rw [upgrade_step_valid cfg p st0 _ hval]
      exact upgrade_fail_still_outdated cfg { st0 with current_package := some p } p
        rc1 out1 err1 rc2 out2 err2 rc3 out3 err3 rc4 out4 err4 rc5 out5 err5 rs tr
        rfl hval hcm h1 h2 h4 h5
    have hl := upgrade_packages_cons_err cfg p rest st0 _ _ _ _ hstep
    have hr := run_of_aux_mas cfg (p :: rest) "latest" st0 _ _ _ _
      (by rw [run_aux_latest]; exact hl)
    rw [hr, run_finish_failed _ _ rfl]
  · intro rc1 out1 err1 rc2 out2 err2 rc3 out3 err3 rc4 out4 err4 rs tr h1 h2 h4
    have hstep : upgrade_step cfg p st0
        ⟨(rc1, out1, err1) :: (rc2, out2, err2) :: (rc3, out3, err3) ::
         (rc4, out4, err4) :: rs, tr⟩ =
        (Except.error (PyExc.mas (pyStrip err3)),
         { st0 with current_package := some p, failed := true, message := pyStrip err3 },
         ⟨rs, tr ++ [[cfg.mas_path, "list"], [cfg.mas_path, "outdated"], installCmd cfg p,
                     [cfg.mas_path, "list"]]⟩) := by
      rw [upgrade_step_valid cfg p st0 _ hval]
      exact upgrade_fail_after_outdated cfg { st0 with current_package := some p } p
        rc1 out1 err1 rc2 out2 err2 rc3 out3 err3 rc4 out4 err4 rs tr
        rfl hval hcm h1 h2 h4
    have hl := upgrade_packages_cons_err cfg p rest st0 _ _ _ _ hstep
    have hr := run_of_aux_mas cfg (p :: rest) "latest" st0 _ _ _ _
      (by rw [run_aux_latest]; exact hl)
    rw [hr, run_finish_failed _ _ rfl]
  · intro rc1 out1 err1 rc2 out2 err2 rc3 out3 err3 rc4 out4 err4 rs tr h1 h3 h4
    have hstep : upgrade_step cfg p st0
        ⟨(rc1, out1, err1) :: (rc2, out2, err2) :: (rc3, out3, err3) ::
         (rc4, out4, err4) :: rs, tr⟩ =
        (Except.error (PyExc.mas (pyStrip err2)),
         { st0 with current_package := some p, failed := true, message := pyStrip err2 },
         ⟨rs, tr ++ [[cfg.mas_path, "list"], installCmd cfg p,
                     [cfg.mas_path, "list"], [cfg.mas_path, "outdated"]]⟩) := by
      rw [upgrade_step_valid cfg p st0 _ hval]
      exact upgrade_fail_now_outdated cfg { st0 with current_package := some p } p
        rc1 out1 err1 rc2 out2 err2 rc3 out3 err3 rc4 out4 err4 rs tr
        rfl hval hcm h1 h3 h4
    have hl := upgrade_packages_cons_err cfg p rest st0 _ _ _ _ hstep
    have hr := run_of_aux_mas cfg (p :: rest) "latest" st0 _ _ _ _
      (by rw [run_aux_latest]; exact hl)
    rw [hr, run_finish_failed _ _ rfl]

theorem mutation_failure_aborts_witness :
    Mas.run ⟨"mas", false⟩ ["42", "43"] "present" Mas.setup_status_vars
        ⟨[(0, "", ""), (1, "", " failed dl\n"), (0, "", "")], []⟩ =
      Except.ok ((true, false, "failed dl"),
        { failed := true, changed := false, changed_count := 0, unchanged_count := 0,
          message := "failed dl", current_package := some "42" },
        ⟨[], [["mas", "list"], ["mas", "install", "42"], ["mas", "list"]]⟩) ∧
    Mas.run ⟨"mas", false⟩ ["42", "43"] "latest" Mas.setup_status_vars
        ⟨[(0, "42 X (1.0)", ""), (0, "42 X (1.0 -> 2.0)", ""), (1, "", "upgrade err\n"),
          (0, "42 X (1.0)", ""), (0, "42 X (1.0 -> 2.0)", "")], []⟩ =
      Except.ok ((true, false, "upgrade err"),
        { failed := true, changed := false, changed_count := 0, unchanged_count := 0,
          message := "upgrade err", current_package := some "42" },
        ⟨[], [["mas", "list"], ["mas", "outdated"], ["mas", "install", "42"],
              ["mas", "list"], ["mas", "outdated"]]⟩) ∧
    Mas.run ⟨"mas", false⟩ ["42", "43"] "latest" Mas.setup_status_vars
        ⟨[(0, "42 X (1.0)", ""), (0, "42 X (1.0 -> 2.0)", ""), (1, "", " gone\n"),
          (0, "", "")], []⟩ =
      Except.ok ((true, false, "gone"),
        { failed := true, changed := false, changed_count := 0, unchanged_count := 0,
          message := "gone", current_package := some "42" },
        ⟨[], [["mas", "list"], ["mas", "outdated"], ["mas", "install", "42"],
              ["mas", "list"]]⟩) ∧
    Mas.run ⟨"mas", false⟩ ["42", "43"] "latest" Mas.setup_status_vars
        ⟨[(0, "", ""), (1, "", "partial\n"), (0, "42 X (0.9)", ""),
          (0, "42 X (0.9 -> 1.0)", "")], []⟩ =
      Except.ok ((true, false, "partial"),
        { failed := true, changed := false, changed_count := 0, unchanged_count := 0,
          message := "partial", current_package := some "42" },
        ⟨[], [["mas", "list"], ["mas", "install", "42"],
              ["mas", "list"], ["mas", "outdated"]]⟩) :=
  ⟨((mutation_failure_aborts ⟨"mas", false⟩ Mas.setup_status_vars "42" ["43"]
      (by decide) rfl).1 0 "" "" 1 "" " failed dl\n" 0 "" "" [] []
      (by decide) (by decide)).1,
   (mutation_failure_aborts ⟨"mas", false⟩ Mas.setup_status_vars "42" ["43"]
      (by decide) rfl).2.1 0 "42 X (1.0)" "" 0 "42 X (1.0 -> 2.0)" "" 1 "" "upgrade err\n"
      0 "42 X (1.0)" "" 0 "42 X (1.0 -> 2.0)" "" [] []
      (by decide) (by decide) (by decide) (by decide),
   (mutation_failure_aborts ⟨"mas", false⟩ Mas.setup_status_vars "42" ["43"]
      (by decide) rfl).2.2.1 0 "42 X (1.0)" "" 0 "42 X (1.0 -> 2.0)" "" 1 "" " gone\n"
      0 "" "" [] [] (by decide) (by decide) (by decide),
   (mutation_failure_aborts ⟨"mas", false⟩ Mas.setup_status_vars "42" ["43"]
      (by decide) rfl).2.2.2 0 "" "" 1 "" "partial\n" 0 "42 X (0.9)" ""
      0 "42 X (0.9 -> 1.0)" "" [] [] (by decide) (by decide) (by decide)⟩

theorem run_finish_message (stI : MasState) (wI : World) (f c : Bool) (m : String)
    (stF : MasState) (wF : World)
    (h : Mas.run_finish stI wI = ((f, c, m), stF, wF)) (hf : f = false) :
    (1 < stI.changed_count + stI.unchanged_count →
      m = aggregate_message stI.changed_count stI.unchanged_count) ∧
    (stI.changed_count + stI.unchanged_count = 1 → m = stI.message) := by
  simp only [Mas.run_finish] at h
  split at h
  · rename_i hc
    simp only [Prod.mk.injEq] at h
    constructor
    · intro _
      exact h.1.2.2.symm
    · intro h1
      omega
  · rename_i hc
    simp only [Prod.mk.injEq] at h
    constructor
    · intro hgt
      exfalso
      exact hc ⟨by rw [h.1.1, hf], hgt⟩
    · intro _
      exact h.1.2.2.symm

/-! Claim C1: aggregate summary after a successful batch. -/

/-- C1: for every batch run of Mas.run that ends without failure, if more
than one package was counted the final message is overwritten with the
aggregate summary 'Changed: c, Unchanged: u' built from the loop's
counts, and if exactly one package was counted the per-package message
left by the loop is preserved verbatim. -/
theorem run_aggregate_message (cfg : MasConfig) (pkgs : List String) (state : String)
    (w : World) (e : Except PyExc Bool) (stI : MasState) (wI : World)
    (f c : Bool) (m : String) (stF : MasState) (wF : World)
    (haux : Mas.run_aux cfg pkgs state Mas.setup_status_vars w = (e, stI, wI))
    (hrun : Mas.run cfg pkgs state Mas.setup_status_vars w =
      Except.ok ((f, c, m), stF, wF))
    (hf : f = false) :
    (1 < stI.changed_count + stI.unchanged_count →
      m = aggregate_message stI.changed_count stI.unchanged_count) ∧
    (stI.changed_count + stI.unchanged_count = 1 → m = stI.message) := by
  rcases e with exc | b
  · rcases exc with msg | _
    · have hr := run_of_aux_mas cfg pkgs state Mas.setup_status_vars w msg stI wI haux
      rw [hr] at hrun
      exact run_finish_message stI wI f c m stF wF (Except.ok.inj hrun) hf
    · rw [Mas.run, haux] at hrun
      exact absurd hrun (by simp)
  · have hr := run_of_aux_ok cfg pkgs state Mas.setup_status_vars w b stI wI haux
    rw [hr] at hrun
    exact run_finish_message stI wI f c m stF wF (Except.ok.inj hrun) hf

theorem run_aggregate_message_witness :
    Mas.run ⟨"mas", false⟩ ["1", "2", "3"] "present" Mas.setup_status_vars
        ⟨[(0, "1 A\n2 B", ""), (0, "1 A\n2 B", ""), (0, "1 A\n2 B", ""), (0, "", ""),
          (0, "1 A\n2 B\n3 C", "")], []⟩ =
      Except.ok ((false, true, "Changed: 1, Unchanged: 2"),
        { failed := false, changed := true, changed_count := 1, unchanged_count := 2,
          message := "Changed: 1, Unchanged: 2", current_package := some "3" },
        ⟨[], [["mas", "list"], ["mas", "list"], ["mas", "list"], ["mas", "install", "3"],
              ["mas", "list"]]⟩) ∧
    "Changed: 1, Unchanged: 2" = aggregate_message 1 2 :=
  ⟨rfl,
   (run_aggregate_message ⟨"mas", false⟩ ["1", "2", "3"] "present"
      ⟨[(0, "1 A\n2 B", ""), (0, "1 A\n2 B", ""), (0, "1 A\n2 B", ""), (0, "", ""),
        (0, "1 A\n2 B\n3 C", "")], []⟩
      (Except.ok true)
      { failed := false, changed := true, changed_count := 1, unchanged_count := 2,
        message := "Package installed: 3", current_package := some "3" }
      ⟨[], [["mas", "list"], ["mas", "list"], ["mas", "list"], ["mas", "install", "3"],
            ["mas", "list"]]⟩
      false true "Changed: 1, Unchanged: 2"
      { failed := false, changed := true, changed_count := 1, unchanged_count := 2,
        message := "Changed: 1, Unchanged: 2", current_package := some "3" }
      ⟨[], [["mas", "list"], ["mas", "list"], ["mas", "list"], ["mas", "install", "3"],
            ["mas", "list"]]⟩
      rfl rfl rfl).1 (by decide)⟩

/-! Claim C4: the conjunctive installed-and-not-outdated gate of the
'latest' desired state. -/

/-- C4: under desired state 'latest', a package is counted as unchanged
(with no mutating call issued) if and only if it is both installed and
not outdated before action; an installed-but-outdated package, and a
not-installed package, both proceed to the mutating path; and after the
mutating call the outcome is classified as success exactly when the
package is again both installed and not outdated.  All four post-mutation
patterns are covered: success from either gate shape, and failure when
the re-query shows not-installed or installed-but-still-outdated, again
from either gate shape. -/
theorem upgrade_conjunctive_gate (cfg : MasConfig) (st : MasState) (p : String)
    (hcp : st.current_package = some p) (hval : Mas.valid_package (some p) = true)
    (hcm : cfg.check_mode = false) :
    (∀ (rc1 : Int) (out1 err1 : String) (rc2 : Int) (out2 err2 : String)
       (rs : List CommandResult) (tr : List (List String)),
      findsPackage p out1 = true → findsPackage p out2 = false →
      Mas.upgrade_current_package cfg st
          ⟨(rc1, out1, err1) :: (rc2, out2, err2) :: rs, tr⟩ =
        (Except.ok true,
         { st with message := "Package is already upgraded: " ++ p,
                   unchanged_count := st.unchanged_count + 1 },
         ⟨rs, tr ++ [[cfg.mas_path, "list"], [cfg.mas_path, "outdated"]]⟩)) ∧
    (∀ (rc1 : Int) (out1 err1 : String) (rc2 : Int) (out2 err2 : String)
       (rc3 : Int) (out3 err3 : String) (rc4 : Int) (out4 err4 : String)
       (rc5 : Int) (out5 err5 : String) (rs : List CommandResult) (tr : List (List String)),
      findsPackage p out1 = true → findsPackage p out2 = true →
      findsPackage p out4 = true → findsPackage p out5 = false →
      Mas.upgrade_current_package cfg st
          ⟨(rc1, out1, err1) :: (rc2, out2, err2) :: (rc3, out3, err3) ::
           (rc4, out4, err4) :: (rc5, out5, err5) :: rs, tr⟩ =
        (Except.ok true,
         { st with changed_count := st.changed_count + 1, changed := true,
                   message := "Package upgraded: " ++ p },
         ⟨rs, tr ++ [[cfg.mas_path, "list"], [cfg.mas_path, "outdated"], installCmd cfg p,
                     [cfg.mas_path, "list"], [cfg.mas_path, "outdated"]]⟩)) ∧
    (∀ (rc1 : Int) (out1 err1 : String) (rc2 : Int) (out2 err2 : String)
       (rc3 : Int) (out3 err3 : String) (rc4 : Int) (out4 err4 : String)
       (rs : List CommandResult) (tr : List (List String)),
      findsPackage p out1 = true → findsPackage p out2 = true →
      findsPackage p out4 = false →
      Mas.upgrade_current_package cfg st
          ⟨(rc1, out1, err1) :: (rc2, out2, err2) :: (rc3, out3, err3) ::
           (rc4, out4, err4) :: rs, tr⟩ =
        (Except.error (PyExc.mas (pyStrip err3)),
         { st with failed := true, message := pyStrip err3 },
         ⟨rs, tr ++ [[cfg.mas_path, "list"], [cfg.mas_path, "outdated"], installCmd cfg p,
                     [cfg.mas_path, "list"]]⟩)) ∧
    (∀ (rc1 : Int) (out1 err1 : String) (rc2 : Int) (out2 err2 : String)
       (rc3 : Int) (out3 err3 : String) (rc4 : Int) (out4 err4 : String)
       (rs : List CommandResult) (tr : List (List String)),
      findsPackage p out1 = false → findsPackage p out3 = true →
      findsPackage p out4 = false →
      Mas.upgrade_current_package cfg st
          ⟨(rc1, out1, err1) :: (rc2, out2, err2) :: (rc3, out3, err3) ::
           (rc4, out4, err4) :: rs, tr⟩ =
        (Except.ok true,
         { st with changed_count := st.changed_count + 1, changed := true,
                   message := "Package upgraded: " ++ p },
         ⟨rs, tr ++ [[cfg.mas_path, "list"], installCmd cfg p,
                     [cfg.mas_path, "list"], [cfg.mas_path, "outdated"]]⟩)) ∧
    (∀ (rc1 : Int) (out1 err1 : String) (rc2 : Int) (out2 err2 : String)
       (rc3 : Int) (out3 err3 : String) (rc4 : Int) (out4 err4 : String)
       (rc5 : Int) (out5 err5 : String) (rs : List CommandResult) (tr : List (List String)),
      findsPackage p out1 = true → findsPackage p out2 = true →
      findsPackage p out4 = true → findsPackage p out5 = true →
      Mas.upgrade_current_package cfg st
          ⟨(rc1, out1, err1) :: (rc2, out2, err2) :: (rc3, out3, err3) ::
           (rc4, out4, err4) :: (rc5, out5, err5) :: rs, tr⟩ =
        (Except.error (PyExc.mas (pyStrip err3)),
         { st with failed := true, message := pyStrip err3 },
         ⟨rs, tr ++ [[cfg.mas_path, "list"], [cfg.mas_path, "outdated"], installCmd cfg p,
                     [cfg.mas_path, "list"], [cfg.mas_path, "outdated"]]⟩)) ∧
    (∀ (rc1 : Int) (out1 err1 : String) (rc2 : Int) (out2 err2 : String)
       (rc3 : Int) (out3 err3 : String) (rs : List CommandResult) (tr : List (List String)),
      findsPackage p out1 = false → findsPackage p out3 = false →
      Mas.upgrade_current_package cfg st
          ⟨(rc1, out1, err1) :: (rc2, out2, err2) :: (rc3, out3, err3) :: rs, tr⟩ =
        (Except.error (PyExc.mas (pyStrip err2)),
         { st with failed := true, message := pyStrip err2 },
         ⟨rs, tr ++ [[cfg.mas_path, "list"], installCmd cfg p, [cfg.mas_path, "list"]]⟩)) ∧
    (∀ (rc1 : Int) (out1 err1 : String) (rc2 : Int) (out2 err2 : String)
       (rc3 : Int) (out3 err3 : String) (rc4 : Int) (out4 err4 : String)
       (rs : List CommandResult) (tr : List (List String)),
      findsPackage p out1 = false → findsPackage p out3 = true →
      findsPackage p out4 = true →
      Mas.upgrade_current_package cfg st
          ⟨(rc1, out1, err1) :: (rc2, out2, err2) :: (rc3, out3, err3) ::
           (rc4, out4, err4) :: rs, tr⟩ =
        (Except.error (PyExc.mas (pyStrip err2)),
         { st with failed := true, message := pyStrip err2 },
         ⟨rs, tr ++ [[cfg.mas_path, "list"], installCmd cfg p,
                     [cfg.mas_path, "list"], [cfg.mas_path, "outdated"]]⟩)) := by
  refine ⟨?_, ?_, ?_, ?_, ?_, ?_, ?_⟩
  · intro rc1 out1 err1 rc2 out2 err2 rs tr h1 h2
    exact upgrade_already cfg st p rc1 out1 err1 rc2 out2 err2 rs tr hcp hval h1 h2
  · intro rc1 out1 err1 rc2 out2 err2 rc3 out3 err3 rc4 out4 err4 rc5 out5 err5 rs tr
      h1 h2 h4 h5
    exact upgrade_success_after_outdated cfg st p rc1 out1 err1 rc2 out2 err2
      rc3 out3 err3 rc4 out4 err4 rc5 out5 err5 rs tr hcp hval hcm h1 h2 h4 h5
  · intro rc1 out1 err1 rc2 out2 err2 rc3 out3 err3 rc4 out4 err4 rs tr h1 h2 h4
    exact upgrade_fail_after_outdated cfg st p rc1 out1 err1 rc2 out2 err2
      rc3 out3 err3 rc4 out4 err4 rs tr hcp hval hcm h1 h2 h4
  · intro rc1 out1 err1 rc2 out2 err2 rc3 out3 err3 rc4 out4 err4 rs tr h1 h3 h4
    exact upgrade_success_not_installed cfg st p rc1 out1 err1 rc2 out2 err2
      rc3 out3 err3 rc4 out4 err4 rs tr hcp hval hcm h1 h3 h4
  · intro rc1 out1 err1 rc2 out2 err2 rc3 out3 err3 rc4 out4 err4 rc5 out5 err5 rs tr
      h1 h2 h4 h5
    exact upgrade_fail_still_outdated cfg st p rc1 out1 err1 rc2 out2 err2
      rc3 out3 err3 rc4 out4 err4 rc5 out5 err5 rs tr hcp hval hcm h1 h2 h4 h5
  · intro rc1 out1 err1 rc2 out2 err2 rc3 out3 err3 rs tr h1 h3
    exact upgrade_fail_not_installed cfg st p rc1 out1 err1 rc2 out2 err2
      rc3 out3 err3 rs tr hcp hval hcm h1 h3
  · intro rc1 out1 err1 rc2 out2 err2 rc3 out3 err3 rc4 out4 err4 rs tr h1 h3 h4
    exact upgrade_fail_now_outdated cfg st p rc1 out1 err1 rc2 out2 err2
      rc3 out3 err3 rc4 out4 err4 rs tr hcp hval hcm h1 h3 h4

theorem upgrade_conjunctive_gate_witness :
    Mas.upgrade_current_package ⟨"mas", false⟩
        { Mas.setup_status_vars with current_package := some "123" }
        ⟨[(0, "123 App (1.0)", ""), (0, "", "")], []⟩ =
      (Except.ok true,
       { Mas.setup_status_vars with
           current_package := some "123",
           message := "Package is already upgraded: 123", unchanged_count := 1 },
       ⟨[], [["mas", "list"], ["mas", "outdated"]]⟩) ∧
    Mas.upgrade_current_package ⟨"mas", false⟩
        { Mas.setup_status_vars with current_package := some "123" }
        ⟨[(0, "123 App (1.0)", ""), (0, "123 App (1.0 -> 2.0)", ""), (0, "", ""),
          (0, "123 App (2.0)", ""), (0, "", "")], []⟩ =
      (Except.ok true,
       { Mas.setup_status_vars with
           current_package := some "123",
           changed_count := 1, changed := true, message := "Package upgraded: 123" },
       ⟨[], [["mas", "list"], ["mas", "outdated"], ["mas", "install", "123"],
             ["mas", "list"], ["mas", "outdated"]]⟩) ∧
    Mas.upgrade_current_package ⟨"mas", false⟩
        { Mas.setup_status_vars with current_package := some "123" }
        ⟨[(0, "123 App (1.0)", ""), (0, "123 App (1.0 -> 2.0)", ""), (1, "", "stuck\n"),
          (0, "123 App (1.0)", ""), (0, "123 App (1.0 -> 2.0)", "")], []⟩ =
      (Except.error (PyExc.mas "stuck"),
       { Mas.setup_status_vars with
           current_package := some "123",
           failed := true, message := "stuck" },
       ⟨[], [["mas", "list"], ["mas", "outdated"], ["mas", "install", "123"],
             ["mas", "list"], ["mas", "outdated"]]⟩) ∧
    Mas.upgrade_current_package ⟨"mas", false⟩
        { Mas.setup_status_vars with current_package := some "123" }
        ⟨[(0, "", ""), (1, "", "dl err\n"), (0, "123 App (1.0)", ""),
          (0, "123 App (1.0 -> 2.0)", "")], []⟩ =
      (Except.error (PyExc.mas "dl err"),
       { Mas.setup_status_vars with
           current_package := some "123",
           failed := true, message := "dl err" },
       ⟨[], [["mas", "list"], ["mas", "install", "123"],
             ["mas", "list"], ["mas", "outdated"]]⟩) :=
  ⟨(upgrade_conjunctive_gate ⟨"mas", false⟩
      { Mas.setup_status_vars with current_package := some "123" } "123"
      rfl (by decide) rfl).1
      0 "123 App (1.0)" "" 0 "" "" [] [] (by decide) (by decide),
   (upgrade_conjunctive_gate ⟨"mas", false⟩
      { Mas.setup_status_vars with current_package := some "123" } "123"
      rfl (by decide) rfl).2.1
      0 "123 App (1.0)" "" 0 "123 App (1.0 -> 2.0)" "" 0 "" "" 0 "123 App (2.0)" ""
      0 "" "" [] [] (by decide) (by decide) (by decide) (by decide),
   (upgrade_conjunctive_gate ⟨"mas", false⟩
      { Mas.setup_status_vars with current_package := some "123" } "123"
      rfl (by decide) rfl).2.2.2.2.1
      0 "123 App (1.0)" "" 0 "123 App (1.0 -> 2.0)" "" 1 "" "stuck\n"
      0 "123 App (1.0)" "" 0 "123 App (1.0 -> 2.0)" "" [] []
      (by decide) (by decide) (by decide) (by decide),
   (upgrade_conjunctive_gate ⟨"mas", false⟩
      { Mas.setup_status_vars with current_package := some "123" } "123"
      rfl (by decide) rfl).2.2.2.2.2.2
      0 "" "" 1 "" "dl err\n" 0 "123 App (1.0)" "" 0 "123 App (1.0 -> 2.0)" "" [] []
      (by decide) (by decide) (by decide)⟩

/-! Claim C9: the per-package messages of the 'latest' state. -/

/-- C9 counterexample: for an already-satisfied package under 'latest'
the code's message is 'Package is already upgraded: {id}', which differs
from 'Package already upgraded: {id}', the result of substituting
"upgraded" for "installed" in the 'present'-state message
'Package already installed: {id}'. -/
theorem upgrade_already_message_counterexample :
    (Mas.upgrade_current_package ⟨"mas", false⟩
        { Mas.setup_status_vars with current_package := some "555" }
        ⟨[(0, "555 App (1.0)", ""), (0, "", "")], []⟩).2.1.message =
      "Package is already upgraded: 555" ∧
    (Mas.install_current_package ⟨"mas", false⟩
        { Mas.setup_status_vars with current_package := some "555" }
        ⟨[(0, "555 App (1.0)", "")], []⟩).2.1.message =
      "Package already installed: 555" ∧
    "Package is already upgraded: 555" ≠ "Package already upgraded: 555" :=
  ⟨rfl, rfl, by decide⟩

/-- C9 (amended): under desired state 'latest' the dry-run message is
'Package would be upgraded: {id}' and the success message is
'Package upgraded: {id}', matching the 'present'-state messages with
"upgraded" substituted for "installed"; the already-satisfied message,
however, is 'Package is already upgraded: {id}' (with an extra "is"
relative to that substitution). -/
theorem upgrade_messages (cfg : MasConfig) (st : MasState) (p : String)
    (hcp : st.current_package = some p) (hval : Mas.valid_package (some p) = true) :
    (∀ (rc1 : Int) (out1 err1 : String) (rc2 : Int) (out2 err2 : String)
       (rs : List CommandResult) (tr : List (List String)),
      findsPackage p out1 = true → findsPackage p out2 = false →
      (Mas.upgrade_current_package cfg st
          ⟨(rc1, out1, err1) :: (rc2, out2, err2) :: rs, tr⟩).2.1.message =
        "Package is already upgraded: " ++ p) ∧
    (cfg.check_mode = true →
      ∀ (rc1 : Int) (out1 err1 : String) (rs : List CommandResult) (tr : List (List String)),
      findsPackage p out1 = false →
      (Mas.upgrade_current_package cfg st ⟨(rc1, out1, err1) :: rs, tr⟩).2.1.message =
        "Package would be upgraded: " ++ p) ∧
    (cfg.check_mode = false →
      ∀ (rc1 : Int) (out1 err1 : String) (rc2 : Int) (out2 err2 : String)
        (rc3 : Int) (out3 err3 : String) (rc4 : Int) (out4 err4 : String)
        (rs : List CommandResult) (tr : List (List String)),
      findsPackage p out1 = false → findsPackage p out3 = true →
      findsPackage p out4 = false →
      (Mas.upgrade_current_package cfg st
          ⟨(rc1, out1, err1) :: (rc2, out2, err2) :: (rc3, out3, err3) ::
           (rc4, out4, err4) :: rs, tr⟩).2.1.message =
        "Package upgraded: " ++ p) := by
  refine ⟨?_, ?_, ?_⟩
  · intro rc1 out1 err1 rc2 out2 err2 rs tr h1 h2
    rw [upgrade_already cfg st p rc1 out1 err1 rc2 out2 err2 rs tr hcp hval h1 h2]
  · intro hcm rc1 out1 err1 rs tr h1
    rw [upgrade_check_mode_not_installed cfg st p rc1 out1 err1 rs tr hcp hval hcm h1]
  · intro hcm rc1 out1 err1 rc2 out2 err2 rc3 out3 err3 rc4 out4 err4 rs tr h1 h3 h4
    rw [upgrade_success_not_installed cfg st p rc1 out1 err1 rc2 out2 err2
      rc3 out3 err3 rc4 out4 err4 rs tr hcp hval hcm h1 h3 h4]

theorem upgrade_messages_witness :
    (Mas.upgrade_current_package ⟨"mas", false⟩
        { Mas.setup_status_vars with current_package := some "777" }
        ⟨[(0, "777 App (1.0)", ""), (0, "", "")], []⟩).2.1.message =
      "Package is already upgraded: 777" ∧
    (Mas.upgrade_current_package ⟨"mas", true⟩
        { Mas.setup_status_vars with current_package := some "777" }
        ⟨[(0, "", "")], []⟩).2.1.message =
      "Package would be upgraded: 777" ∧
    (Mas.upgrade_current_package ⟨"mas", false⟩
        { Mas.setup_status_vars with current_package := some "777" }
        ⟨[(0, "", ""), (0, "", ""), (0, "777 App (1.0)", ""), (0, "", "")], []⟩).2.1.message =
      "Package upgraded: 777" :=
  ⟨(upgrade_messages ⟨"mas", false⟩
      { Mas.setup_status_vars with current_package := some "777" } "777"
      rfl (by decide)).1 0 "777 App (1.0)" "" 0 "" "" [] [] (by decide) (by decide),
   (upgrade_messages ⟨"mas", true⟩
      { Mas.setup_status_vars with current_package := some "777" } "777"
      rfl (by decide)).2.1 rfl 0 "" "" [] [] (by decide),
   (upgrade_messages ⟨"mas", false⟩
      { Mas.setup_status_vars with current_package := some "777" } "777"
      rfl (by decide)).2.2 rfl 0 "" "" 0 "" "" 0 "777 App (1.0)" "" 0 "" "" [] []
      (by decide) (by decide) (by decide)⟩

/-! Trace lemmas: in check mode every issued command is a query. -/

theorem query_trace_trans (cfg : MasConfig) (t1 t2 t3 : List (List String))
    (h12 : ∀ cmd ∈ t2, cmd ∈ t1 ∨ queryCmd cfg cmd)
    (h23 : ∀ cmd ∈ t3, cmd ∈ t2 ∨ queryCmd cfg cmd) :
    ∀ cmd ∈ t3, cmd ∈ t1 ∨ queryCmd cfg cmd := by
  intro cmd h3
  rcases h23 cmd h3 with h | h
  · exact h12 cmd h
  · exact Or.inr h

theorem trace_append_query (cfg : MasConfig) (t : List (List String))
    (cmd0 : List String) (hq : queryCmd cfg cmd0) :
    ∀ cmd ∈ t ++ [cmd0], cmd ∈ t ∨ queryCmd cfg cmd := by
  intro cmd h
  rcases List.mem_append.mp h with h | h
  · exact Or.inl h
  · exact Or.inr ((List.mem_singleton.mp h) ▸ hq)

theorem is_installed_trace_query (cfg : MasConfig) (st : MasState) (w : World) :
    ∀ cmd ∈ (Mas.current_package_is_installed cfg st w).2.2.trace,
      cmd ∈ w.trace ∨ queryCmd cfg cmd := by
  unfold Mas.current_package_is_installed
  cases hv : Mas.valid_package st.current_package
  · intro cmd h
    simp only [hv, Bool.not_false, if_true] at h
    exact Or.inl h
  · cases hcp : st.current_package <;>
    · intro cmd h
      simp only [hv, hcp, Bool.not_true, Bool.false_eq_true, if_false,
        World.run_command] at h
      exact trace_append_query cfg w.trace _ (Or.inl rfl) cmd h

theorem is_outdated_trace_query (cfg : MasConfig) (st : MasState) (w : World) :
    ∀ cmd ∈ (Mas.current_package_is_outdated cfg st w).2.trace,
      cmd ∈ w.trace ∨ queryCmd cfg cmd := by
  unfold Mas.current_package_is_outdated
  cases hv : Mas.valid_package st.current_package
  · intro cmd h
    simp only [hv, Bool.not_false, if_true] at h
    exact Or.inl h
  · cases hcp : st.current_package <;>
    · intro cmd h
      simp only [hv, hcp, Bool.not_true, Bool.false_eq_true, if_false,
        World.run_command] at h
      exact trace_append_query cfg w.trace _ (Or.inr rfl) cmd h

theorem install_current_trace_query (cfg : MasConfig) (st : MasState) (w : World)
    (hcm : cfg.check_mode = true) :
    ∀ cmd ∈ (Mas.install_current_package cfg st w).2.2.trace,
      cmd ∈ w.trace ∨ queryCmd cfg cmd := by
  unfold Mas.install_current_package
  cases hv : Mas.valid_package st.current_package
  · intro cmd h
    simp only [hv, Bool.not_false, if_true] at h
    exact Or.inl h
  · rcases hq : Mas.current_package_is_installed cfg st w with ⟨e, st1, w1⟩
    have ht := is_installed_trace_query cfg st w
    rw [hq] at ht
    rcases e with e | b
    · intro cmd h
      simp only [hv, hq, Bool.not_true, Bool.false_eq_true, if_false] at h
      exact ht cmd h
    · cases b
      · intro cmd h
        simp only [hv, hq, hcm, Bool.not_true, Bool.false_eq_true, if_false,
          Bool.false_eq_true, if_true] at h
        exact ht cmd h
      · intro cmd h
        simp only [hv, hq, Bool.not_true, Bool.false_eq_true, if_false] at h
        exact ht cmd h

theorem upgrade_gate_trace_query (cfg : MasConfig) (st : MasState) (w : World) :
    ∀ cmd ∈ (upgrade_gate cfg st w).2.2.trace,
      cmd ∈ w.trace ∨ queryCmd cfg cmd := by
  unfold upgrade_gate
  rcases hq : Mas.current_package_is_installed cfg st w with ⟨e, st1, w1⟩
  have ht := is_installed_trace_query cfg st w
  rw [hq] at ht
  rcases e with e | b
  · intro cmd h
    simp only at h
    exact ht cmd h
  · cases b
    · intro cmd h
      simp only [Bool.false_eq_true, if_false] at h
      exact ht cmd h
    · rcases ho : Mas.current_package_is_outdated cfg st1 w1 with ⟨e2, w2⟩
      have hto := is_outdated_trace_query cfg st1 w1
      rw [ho] at hto
      rcases e2 with e2 | b2 <;>
      · intro cmd h
        simp only [ho, if_true] at h
        exact query_trace_trans cfg w.trace w1.trace w2.trace ht hto cmd h

theorem upgrade_current_trace_query (cfg : MasConfig) (st : MasState) (w : World)
    (hcm : cfg.check_mode = true) :
    ∀ cmd ∈ (Mas.upgrade_current_package cfg st w).2.2.trace,
      cmd ∈ w.trace ∨ queryCmd cfg cmd := by
  unfold Mas.upgrade_current_package
  cases hv : Mas.valid_package st.current_package
  · intro cmd h
    simp only [hv, Bool.not_false, if_true] at h
    exact Or.inl h
  · rcases hg : upgrade_gate cfg st w with ⟨e, st1, w1⟩
    have ht := upgrade_gate_trace_query cfg st w
    rw [hg] at ht
    rcases e with e | b
    · intro cmd h
      simp only [hv, hg, Bool.not_true, Bool.false_eq_true, if_false] at h
      exact ht cmd h
    · cases b
      · intro cmd h
        simp only [hv, hg, hcm, Bool.not_true, Bool.false_eq_true, if_false,
          if_true] at h
        exact ht cmd h
      · intro cmd h
        simp only [hv, hg, Bool.not_true, Bool.false_eq_true, if_false] at h
        exact ht cmd h

theorem install_step_trace_query (cfg : MasConfig) (p : String) (st : MasState)
    (w : World) (hcm : cfg.check_mode = true) :
    ∀ cmd ∈ (install_step cfg p st w).2.2.trace,
      cmd ∈ w.trace ∨ queryCmd cfg cmd := by
  unfold install_step
  rcases hs : Mas.set_current_package st (some p) with ⟨e, st1⟩
  rcases e with e | u
  · intro cmd h
    simp only at h
    exact Or.inl h
  · intro cmd h
    simp only at h
    exact install_current_trace_query cfg st1 w hcm cmd h

theorem upgrade_step_trace_query (cfg : MasConfig) (p : String) (st : MasState)
    (w : World) (hcm : cfg.check_mode = true) :
    ∀ cmd ∈ (upgrade_step cfg p st w).2.2.trace,
      cmd ∈ w.trace ∨ queryCmd cfg cmd := by
  unfold upgrade_step
  rcases hs : Mas.set_current_package st (some p) with ⟨e, st1⟩
  rcases e with e | u
  · intro cmd h
    simp only at h
    exact Or.inl h
  · intro cmd h
    simp only at h
    exact upgrade_current_trace_query cfg st1 w hcm cmd h

theorem install_packages_trace_query (cfg : MasConfig) (hcm : cfg.check_mode = true) :
    ∀ (pkgs : List String) (st : MasState) (w : World),
      ∀ cmd ∈ (Mas.install_packages cfg pkgs st w).2.2.trace,
        cmd ∈ w.trace ∨ queryCmd cfg cmd := by
  intro pkgs
  induction pkgs with
  | nil =>
    intro st w cmd h
    simp only [Mas.install_packages] at h
    exact Or.inl h
  | cons p rest ih =>
    intro st w
    rcases hstep : install_step cfg p st w with ⟨e, st1, w1⟩
    have ht := install_step_trace_query cfg p st w hcm
    rw [hstep] at ht
    rcases e with e | b
    · intro cmd h
      rw [install_packages_cons_err cfg p rest st w e st1 w1 hstep] at h
      exact ht cmd h
    · intro cmd h
      rw [install_packages_cons_ok cfg p rest st w b st1 w1 hstep] at h
      exact query_trace_trans cfg w.trace w1.trace _ ht (ih st1 w1) cmd h

theorem upgrade_packages_trace_query (cfg : MasConfig) (hcm : cfg.check_mode = true) :
    ∀ (pkgs : List String) (st : MasState) (w : World),
      ∀ cmd ∈ (Mas.upgrade_packages cfg pkgs st w).2.2.trace,
        cmd ∈ w.trace ∨ queryCmd cfg cmd := by
  intro pkgs
  induction pkgs with
  | nil =>
    intro st w cmd h
    simp only [Mas.upgrade_packages] at h
    exact Or.inl h
  | cons p rest ih =>
    intro st w
    rcases hstep : upgrade_step cfg p st w with ⟨e, st1, w1⟩
    have ht := upgrade_step_trace_query cfg p st w hcm
    rw [hstep] at ht
    rcases e with e | b
    · intro cmd h
      rw [upgrade_packages_cons_err cfg p rest st w e st1 w1 hstep] at h
      exact ht cmd h
    · intro cmd h
      rw [upgrade_packages_cons_ok cfg p rest st w b st1 w1 hstep] at h
      exact query_trace_trans cfg w.trace w1.trace _ ht (ih st1 w1) cmd h

theorem run_aux_trace_query (cfg : MasConfig) (pkgs : List String) (state : String)
    (st : MasState) (w : World) (hcm : cfg.check_mode = true) :
    ∀ cmd ∈ (Mas.run_aux cfg pkgs state st w).2.2.trace,
      cmd ∈ w.trace ∨ queryCmd cfg cmd := by
  unfold Mas.run_aux
  cases hp : pkgs.isEmpty
  · by_cases hs : state = "present"
    · simp only [hp, Bool.false_eq_true, if_false, hs, if_true]
      exact install_packages_trace_query cfg hcm pkgs st w
    · by_cases hl : state = "latest"
      · simp only [hp, Bool.false_eq_true, if_false, hs, hl, if_true]
        exact upgrade_packages_trace_query cfg hcm pkgs st w
      · intro cmd h
        simp only [hp, Bool.false_eq_true, if_false, hs, hl] at h
        exact Or.inl h
  · intro cmd h
    simp only [hp, if_true] at h
    exact Or.inl h

theorem run_finish_dry (st0 : MasState) (p wmsg : String) (w1 : World)
    (hf : st0.failed = false) :
    Mas.run_finish
        { st0 with current_package := some p, changed := true, message := wmsg } w1 =
      ((false, true,
        if 1 < st0.changed_count + st0.unchanged_count
        then aggregate_message st0.changed_count st0.unchanged_count else wmsg),
       (if 1 < st0.changed_count + st0.unchanged_count
        then { st0 with current_package := some p, changed := true,
                        message := aggregate_message st0.changed_count st0.unchanged_count }
        else { st0 with current_package := some p, changed := true, message := wmsg }),
       w1) := by
  by_cases hgt : 1 < st0.changed_count + st0.unchanged_count <;>
    simp [Mas.run_finish, hf, hgt]

/-! Claim C2: dry-run behaviour. -/

/-- C2 (amended): in dry-run (check) mode the mutating install subcommand
is never invoked — every command the batch issues is the `list` or
`outdated` query.  When the batch reaches a valid package not yet
satisfying the desired state it is aborted at that package with
failed=false and changed=true, and the result message is the per-package
'would be installed' / 'would be upgraded' message unless more than one
package had already been counted, in which case the aggregate summary
'Changed: c, Unchanged: u' overwrites it. -/
theorem check_mode_never_mutates (cfg : MasConfig) (hcm : cfg.check_mode = true) :
    (∀ (pkgs : List String) (state : String) (st : MasState) (w : World),
      ∀ cmd ∈ (Mas.run_aux cfg pkgs state st w).2.2.trace,
        cmd ∈ w.trace ∨ queryCmd cfg cmd) ∧
    (∀ (st0 : MasState) (p : String) (rest : List String) (rc : Int) (out err : String)
       (rs : List CommandResult) (tr : List (List String)),
      st0.failed = false → Mas.valid_package (some p) = true →
      findsPackage p out = false →
      Mas.run cfg (p :: rest) "present" st0 ⟨(rc, out, err) :: rs, tr⟩ =
        Except.ok ((false, true,
          if 1 < st0.changed_count + st0.unchanged_count
          then aggregate_message st0.changed_count st0.unchanged_count
          else "Package would be installed: " ++ p),
         (if 1 < st0.changed_count + st0.unchanged_count
          then { st0 with current_package := some p, changed := true,
                          message := aggregate_message st0.changed_count st0.unchanged_count }
          else { st0 with current_package := some p, changed := true,
                          message := "Package would be installed: " ++ p }),
         ⟨rs, tr ++ [[cfg.mas_path, "list"]]⟩)) ∧
    (∀ (st0 : MasState) (p : String) (rest : List String) (rc : Int) (out err : String)
       (rs : List CommandResult) (tr : List (List String)),
      st0.failed = false → Mas.valid_package (some p) = true →
      findsPackage p out = false →
      Mas.run cfg (p :: rest) "latest" st0 ⟨(rc, out, err) :: rs, tr⟩ =
        Except.ok ((false, true,
          if 1 < st0.changed_count + st0.unchanged_count
          then aggregate_message st0.changed_count st0.unchanged_count
          else "Package would be upgraded: " ++ p),
         (if 1 < st0.changed_count + st0.unchanged_count
          then { st0 with current_package := some p, changed := true,
                          message := aggregate_message st0.changed_count st0.unchanged_count }
          else { st0 with current_package := some p, changed := true,
                          message := "Package would be upgraded: " ++ p }),
         ⟨rs, tr ++ [[cfg.mas_path, "list"]]⟩)) ∧
    (∀ (st0 : MasState) (p : String) (rest : List String)
       (rc1 : Int) (out1 err1 : String) (rc2 : Int) (out2 err2 : String)
       (rs : List CommandResult) (tr : List (List String)),
      st0.failed = false → Mas.valid_package (some p) = true →
      findsPackage p out1 = true → findsPackage p out2 = true →
      Mas.run cfg (p :: rest) "latest" st0
          ⟨(rc1, out1, err1) :: (rc2, out2, err2) :: rs, tr⟩ =
        Except.ok ((false, true,
          if 1 < st0.changed_count + st0.unchanged_count
          then aggregate_message st0.changed_count st0.unchanged_count
          else "Package would be upgraded: " ++ p),
         (if 1 < st0.changed_count + st0.unchanged_count
          then { st0 with current_package := some p, changed := true,
                          message := aggregate_message st0.changed_count st0.unchanged_count }
          else { st0 with current_package := some p, changed := true,
                          message := "Package would be upgraded: " ++ p }),
         ⟨rs, tr ++ [[cfg.mas_path, "list"], [cfg.mas_path, "outdated"]]⟩)) := by
  refine ⟨?_, ?_, ?_, ?_⟩
  · intro pkgs state st w
    exact run_aux_trace_query cfg pkgs state st w hcm
  · intro st0 p rest rc out err rs tr hf hval h
    have hstep : install_step cfg p st0 ⟨(rc, out, err) :: rs, tr⟩ =
        (Except.error (PyExc.mas ("Package would be installed: " ++ p)),
         { st0 with current_package := some p, changed := true,
                    message := "Package would be installed: " ++ p },
         ⟨rs, tr ++ [[cfg.mas_path, "list"]]⟩) := by
      rw [install_step_valid cfg p st0 _ hval]
      exact install_check_mode cfg { st0 with current_package := some p }
        ⟨(rc, out, err) :: rs, tr⟩ p rfl hval hcm h
    have hl := install_packages_cons_err cfg p rest st0 _ _ _ _ hstep
    have hr := run_of_aux_mas cfg (p :: rest) "present" st0 _ _ _ _
      (by rw [run_aux_present]; exact hl)
    rw [hr, run_finish_dry st0 p _ _ hf]
  · intro st0 p rest rc out err rs tr hf hval h
    have hstep : upgrade_step cfg p st0 ⟨(rc, out, err) :: rs, tr⟩ =
        (Except.error (PyExc.mas ("Package would be upgraded: " ++ p)),
         { st0 with current_package := some p, changed := true,
                    message := "Package would be upgraded: " ++ p },
         ⟨rs, tr ++ [[cfg.mas_path, "list"]]⟩) := by
      rw [upgrade_step_valid cfg p st0 _ hval]
      exact upgrade_check_mode_not_installed cfg { st0 with current_package := some p }
        p rc out err rs tr rfl hval hcm h
    have hl := upgrade_packages_cons_err cfg p rest st0 _ _ _ _ hstep
    have hr := run_of_aux_mas cfg (p :: rest) "latest" st0 _ _ _ _
      (by rw [run_aux_latest]; exact hl)
    rw [hr, run_finish_dry st0 p _ _ hf]
  · intro st0 p rest rc1 out1 err1 rc2 out2 err2 rs tr hf hval h1 h2
    have hstep : upgrade_step cfg p st0 ⟨(rc1, out1, err1) :: (rc2, out2, err2) :: rs, tr⟩ =
        (Except.error (PyExc.mas ("Package would be upgraded: " ++ p)),
         { st0 with current_package := some p, changed := true,
                    message := "Package would be upgraded: " ++ p },
         ⟨rs, tr ++ [[cfg.mas_path, "list"], [cfg.mas_path, "outdated"]]⟩) := by
      rw [upgrade_step_valid cfg p st0 _ hval]
      exact upgrade_check_mode_outdated cfg { st0 with current_package := some p }
        p rc1 out1 err1 rc2 out2 err2 rs tr rfl hval hcm h1 h2
    have hl := upgrade_packages_cons_err cfg p rest st0 _ _ _ _ hstep
    have hr := run_of_aux_mas cfg (p :: rest) "latest" st0 _ _ _ _
      (by rw [run_aux_latest]; exact hl)
    rw [hr, run_finish_dry st0 p _ _ hf]

/-- C2 counterexample: a dry-run batch of three packages where the first
two are already installed and the third is not.  The mutating command is
indeed never issued and failed=false, changed=true hold, but the run's
final message is the aggregate summary 'Changed: 0, Unchanged: 2' — it
does not contain 'would be installed', because after the dry-run abort
the no-failure aggregate overwrite of Mas.run still applies (two packages
had been counted). -/
theorem check_mode_message_counterexample :
    Mas.run ⟨"mas", true⟩ ["1", "2", "3"] "present" Mas.setup_status_vars
        ⟨[(0, "1 A\n2 B", ""), (0, "1 A\n2 B", ""), (0, "1 A\n2 B", "")], []⟩ =
      Except.ok ((false, true, "Changed: 0, Unchanged: 2"),
        { failed := false, changed := true, changed_count := 0, unchanged_count := 2,
          message := "Changed: 0, Unchanged: 2", current_package := some "3" },
        ⟨[], [["mas", "list"], ["mas", "list"], ["mas", "list"]]⟩) ∧
    findsPackage "3" "1 A\n2 B" = false ∧
    strFind "would be installed".toList "Changed: 0, Unchanged: 2".toList = false :=
  ⟨rfl, by decide, by decide⟩

theorem check_mode_never_mutates_witness :
    Mas.run ⟨"mas", true⟩ ["9", "8"] "present" Mas.setup_status_vars
        ⟨[(0, "", "")], []⟩ =
      Except.ok ((false, true, "Package would be installed: 9"),
        { failed := false, changed := true, changed_count := 0, unchanged_count := 0,
          message := "Package would be installed: 9", current_package := some "9" },
        ⟨[], [["mas", "list"]]⟩) ∧
    Mas.run ⟨"mas", true⟩ ["9", "8"] "latest" Mas.setup_status_vars
        ⟨[(0, "9 App (1.0)", ""), (0, "9 App (1.0 -> 2.0)", "")], []⟩ =
      Except.ok ((false, true, "Package would be upgraded: 9"),
        { failed := false, changed := true, changed_count := 0, unchanged_count := 0,
          message := "Package would be upgraded: 9", current_package := some "9" },
        ⟨[], [["mas", "list"], ["mas", "outdated"]]⟩) ∧
    (∀ cmd ∈ (Mas.run_aux ⟨"mas", true⟩ ["9", "8"] "present" Mas.setup_status_vars
        ⟨[(0, "", "")], []⟩).2.2.trace,
      cmd ∈ ([] : List (List String)) ∨ queryCmd ⟨"mas", true⟩ cmd) :=
  ⟨(check_mode_never_mutates ⟨"mas", true⟩ rfl).2.1 Mas.setup_status_vars "9" ["8"]
      0 "" "" [] [] rfl (by decide) (by decide),
   (check_mode_never_mutates ⟨"mas", true⟩ rfl).2.2.2 Mas.setup_status_vars "9" ["8"]
      0 "9 App (1.0)" "" 0 "9 App (1.0 -> 2.0)" "" [] [] rfl (by decide)
      (by decide) (by decide),
   (check_mode_never_mutates ⟨"mas", true⟩ rfl).1 ["9", "8"] "present"
      Mas.setup_status_vars ⟨[(0, "", "")], []⟩⟩
